import Mathlib

/-!
The window, triangle and square programs of learning-opengl.

A shallow embedding of `src/window.cpp`, `src/triangle.cpp` and `src/square.cpp`.

Every call into GLFW, GLAD or OpenGL is recorded, in program order, in a trace
(`State.trace`).  What the libraries answer (whether the window could be
created, the object names handed out by the driver, compile and link statuses,
info logs, the keyboard state and the events of every frame) is read from a
`World`, which plays the role of the environment.  The three `main` functions
are translated statement by statement; the `while` loop takes a bound on the
number of iterations and reports whether it left the loop.
-/

namespace LearnOpenGL

/-! Library vocabulary. -/

/-- Window hints set by the programs (`GLFW_CONTEXT_VERSION_MAJOR`,
`GLFW_CONTEXT_VERSION_MINOR`, `GLFW_OPENGL_PROFILE`). -/
inductive Hint
  | contextVersionMajor
  | contextVersionMinor
  | openglProfile
  deriving DecidableEq, Repr

/-- Values given to the hints: a number or `GLFW_OPENGL_CORE_PROFILE`. -/
inductive HintValue
  | num (n : Nat)
  | coreProfile
  deriving DecidableEq, Repr

/-- Shader stage given to `glCreateShader`
(`GL_VERTEX_SHADER`, `GL_FRAGMENT_SHADER`). -/
inductive ShaderStage
  | vertex
  | fragment
  deriving DecidableEq, Repr

/-- Buffer binding targets (`GL_ARRAY_BUFFER`, `GL_ELEMENT_ARRAY_BUFFER`). -/
inductive BufferTarget
  | arrayBuffer
  | elementArrayBuffer
  deriving DecidableEq, Repr

/-- Primitive mode of a draw call (`GL_POINTS`, `GL_LINES`, `GL_TRIANGLES`). -/
inductive DrawMode
  | points
  | lines
  | triangles
  deriving DecidableEq, Repr

/-- Data handed to `glBufferData`: a `float[]` or an `unsigned int[]`. -/
inductive BufferData
  | floats (xs : List ℚ)
  | uints (xs : List Nat)
  deriving DecidableEq

/-- One observable action of a program: a library call with its arguments
(and, for the calls that create an object, the name the driver returned), or a
write to standard output.  Arguments that are the same constant at every call
site of the three programs are left out: the window, `GLFW_KEY_ESCAPE`,
`GL_COLOR_BUFFER_BIT`, `GL_COMPILE_STATUS`, `GL_LINK_STATUS`, `GL_FLOAT`,
`GL_FALSE`, `GL_STATIC_DRAW`, `GL_UNSIGNED_INT`. -/
inductive Call
  | glfwInit
  | glfwWindowHint (hint : Hint) (value : HintValue)
  | glfwCreateWindow (width height : Int) (title : String)
  | glfwTerminate
  | glfwMakeContextCurrent
  | gladLoadGLLoader
  | glViewport (x y width height : Int)
  | glfwSetFramebufferSizeCallback
  | glCreateShader (stage : ShaderStage) (result : Nat)
  | glShaderSource (shader : Nat) (source : String)
  | glCompileShader (shader : Nat)
  | glGetShaderiv (shader : Nat)
  | glGetShaderInfoLog (shader : Nat) (maxLength : Nat)
  | glCreateProgram (result : Nat)
  | glAttachShader (program shader : Nat)
  | glLinkProgram (program : Nat)
  | glGetProgramiv (program : Nat)
  | glGetProgramInfoLog (program : Nat) (maxLength : Nat)
  | glDeleteShader (shader : Nat)
  | glGenVertexArrays (n : Nat) (result : Nat)
  | glBindVertexArray (array : Nat)
  | glGenBuffers (n : Nat) (result : Nat)
  | glBindBuffer (target : BufferTarget) (buffer : Nat)
  | glBufferData (target : BufferTarget) (size : Nat) (data : BufferData)
  | glVertexAttribPointer (index size stride offset : Nat)
  | glEnableVertexAttribArray (index : Nat)
  | glfwWindowShouldClose
  | glfwGetKey
  | glfwSetWindowShouldClose (value : Bool)
  | glClearColor (r g b a : ℚ)
  | glClear
  | glUseProgram (program : Nat)
  | glDrawArrays (mode : DrawMode) (first count : Nat)
  | glDrawElements (mode : DrawMode) (count : Nat) (offset : Nat)
  | glfwSwapBuffers
  | glfwPollEvents
  | print (text : String)
  deriving DecidableEq

/-- The rectangle set by `glViewport`. -/
structure Viewport where
  x : Int
  y : Int
  width : Int
  height : Int
  deriving DecidableEq, Repr

/-- An event delivered to the window while `glfwPollEvents` runs. -/
inductive WindowEvent
  | framebufferResize (width height : Int)
  | closeRequest
  deriving DecidableEq, Repr

/-- What the environment supplies during one frame: the state of the escape
key when `glfwGetKey` is called and the events handed out by the
`glfwPollEvents` call that ends the frame. -/
structure FrameInput where
  escapePressed : Bool
  events : List WindowEvent

/-- The answers of the libraries during one run. -/
structure World where
  /-- Whether `glfwCreateWindow` returned a non-NULL window. -/
  windowCreated : Bool
  /-- Whether `gladLoadGLLoader` returned non-zero. -/
  loaderOk : Bool
  /-- Name returned by `glCreateShader(GL_VERTEX_SHADER)`. -/
  vertexShader : Nat
  /-- Name returned by `glCreateShader(GL_FRAGMENT_SHADER)`. -/
  fragmentShader : Nat
  /-- Name returned by `glCreateProgram()`. -/
  shaderProgram : Nat
  /-- Value written by `glGetShaderiv(vertexShader, GL_COMPILE_STATUS, _)`. -/
  vertexSuccess : Int
  /-- Value written by `glGetShaderiv(fragmentShader, GL_COMPILE_STATUS, _)`. -/
  fragmentSuccess : Int
  /-- Value written by `glGetProgramiv(shaderProgram, GL_LINK_STATUS, _)`. -/
  programSuccess : Int
  /-- Info log the driver holds for the vertex shader. -/
  vertexLog : String
  /-- Info log the driver holds for the fragment shader. -/
  fragmentLog : String
  /-- Info log the driver holds for the program. -/
  programLog : String
  /-- Name returned by `glGenVertexArrays`. -/
  VAO : Nat
  /-- Name returned by the first `glGenBuffers`. -/
  VBO : Nat
  /-- Name returned by the second `glGenBuffers` (square only). -/
  EBO : Nat
  /-- Keyboard state and events, frame by frame. -/
  frames : Nat → FrameInput

/-- The part of the machine state the programs can change and observe. -/
structure State where
  /-- Calls made so far, oldest first. -/
  trace : List Call
  /-- The close flag of the window. -/
  shouldClose : Bool
  /-- The viewport; `none` until the program has set one. -/
  viewport : Option Viewport
  /-- Whether `framebuffer_size_callback` is registered on the window. -/
  resizeCallback : Bool

/-- State at the start of `main`. -/
def State.init : State :=
  { trace := [], shouldClose := false, viewport := none, resizeCallback := false }

/-- Record a call that has no effect on the modelled state. -/
def State.call (s : State) (c : Call) : State :=
  { s with trace := s.trace ++ [c] }

/-- Write a text to standard output (`std::cout << ...`). -/
def State.print (s : State) (text : String) : State :=
  s.call (Call.print text)

/-- The text written to standard output by a sequence of calls. -/
def stdout : List Call → String
  | [] => ""
  | Call.print t :: cs => t ++ stdout cs
  | _ :: cs => stdout cs

/-- The text `glGetShaderInfoLog` / `glGetProgramInfoLog` leave in a buffer of
`maxLength` chars: the log, cut to `maxLength - 1` chars (the last one is the
terminating NUL). -/
def infoLog (maxLength : Nat) (log : String) : String :=
  String.mk (log.data.take (maxLength - 1))

/-! Constants of the programs. -/

/-- The constant `const int WINDOW_WIDTH = 800;`. -/
def WINDOW_WIDTH : Int := 800

/-- The constant `const int WINDOW_HEIGHT = 600;`. -/
def WINDOW_HEIGHT : Int := 600

/-- Value of `sizeof(float)` on the platforms OpenGL runs on (`GLfloat` is 32 bits). -/
def sizeofFloat : Nat := 4

/-- Value of `sizeof(unsigned int)` (`GLuint` is 32 bits). -/
def sizeofUInt : Nat := 4

/-- The C string `vertexShaderSource` (it ends at the explicit NUL). -/
def vertexShaderSource : String :=
  "#version 330 core\nlayout (location = 0) in vec3 aPos;\nvoid main()\n\x7b\n   gl_Position = vec4(aPos.x, aPos.y, aPos.z, 1.0);\n\x7d"

/-- The C string `fragmentShaderSource` (it ends at the explicit NUL). -/
def fragmentShaderSource : String :=
  "#version 330 core\nout vec4 FragColor;\nvoid main()\n\x7b\n    FragColor = vec4(1.0f, 0.5f, 0.2f, 1.0f);\n\x7d"

/-- The array `float vertices[]` of `triangle.cpp`, lines 123-126. -/
def triangle_vertices : List ℚ :=
  [-0.5, -0.5, 0.0,
   0.5, -0.5, 0.0,
   0.0, 0.5, 0.0]

/-- The array `float vertices[]` of `square.cpp`, lines 106-110. -/
def square_vertices : List ℚ :=
  [0.5, 0.5, 0.0,
   0.5, -0.5, 0.0,
   -0.5, -0.5, 0.0,
   -0.5, 0.5, 0.0]

/-- The array `unsigned int indices[]` of `square.cpp`, lines 112-114. -/
def square_indices : List Nat :=
  [0, 1, 3,
   1, 2, 3]

/-- Number of components of the position attribute
(second argument of `glVertexAttribPointer`). -/
def attribSize : Nat := 3

/-- Stride given to `glVertexAttribPointer`: `3 * sizeof(float)`. -/
def attribStride : Nat := 3 * sizeofFloat

/-- Offset given to `glVertexAttribPointer`: `(void *)0`. -/
def attribOffset : Nat := 0

/-- The `first` argument of `glDrawArrays(GL_TRIANGLES, 0, 3)`. -/
def triangle_drawFirst : Nat := 0

/-- The `count` argument of `glDrawArrays(GL_TRIANGLES, 0, 3)`. -/
def triangle_drawCount : Nat := 3

/-- The `count` argument of `glDrawElements(GL_TRIANGLES, 6, GL_UNSIGNED_INT, 0)`. -/
def square_drawCount : Nat := 6

/-- Header printed when the vertex shader fails to compile. -/
def vertexErrorHeader : String := "ERROR::SHADER::VERTEX::COMPILATION_FAILED\n"

/-- Header printed when the fragment shader fails to compile
(`triangle.cpp` line 92, `square.cpp` line 80). -/
def fragmentErrorHeader : String := "ERROR::SHADER::VERTEX::COMPILATION_FAILED\n"

/-- Header printed when the program fails to link. -/
def programErrorHeader : String := "ERROR::SHADER::PROGRAM::LINKING_FAILED\n"

/-! Library calls that change the modelled state. -/

/-- The call `glViewport(x, y, width, height)`. -/
def glViewport (x y width height : Int) (s : State) : State :=
  { s with trace := s.trace ++ [Call.glViewport x y width height],
           viewport := some ⟨x, y, width, height⟩ }

/-- The call `glfwSetFramebufferSizeCallback(window, framebuffer_size_callback)`. -/
def glfwSetFramebufferSizeCallback (s : State) : State :=
  { s with trace := s.trace ++ [Call.glfwSetFramebufferSizeCallback],
           resizeCallback := true }

/-- The call `glfwSetWindowShouldClose(window, value)`. -/
def glfwSetWindowShouldClose (value : Bool) (s : State) : State :=
  { s with trace := s.trace ++ [Call.glfwSetWindowShouldClose value],
           shouldClose := value }

/-! The two helper functions, identical in the three files. -/

/-- The function `framebuffer_size_callback` (window.cpp 9-12, triangle.cpp and square.cpp 20-23). -/
def framebuffer_size_callback (width height : Int) (s : State) : State :=
  glViewport 0 0 width height s

/-- The function `processInput` (window.cpp 15-19, triangle.cpp and square.cpp 25-29);
`escape` is whether `glfwGetKey(window, GLFW_KEY_ESCAPE) == GLFW_PRESS`. -/
def processInput (escape : Bool) (s : State) : State :=
  let s := s.call Call.glfwGetKey
  if escape then glfwSetWindowShouldClose true s else s

/-- How GLFW handles one event: a framebuffer resize invokes the registered
callback (if any), a close request sets the close flag. -/
def dispatch (s : State) : WindowEvent → State
  | WindowEvent.framebufferResize width height =>
      if s.resizeCallback then framebuffer_size_callback width height s else s
  | WindowEvent.closeRequest => { s with shouldClose := true }

/-- The call `glfwPollEvents()`: handles the pending events in order. -/
def glfwPollEvents (events : List WindowEvent) (s : State) : State :=
  events.foldl dispatch (s.call Call.glfwPollEvents)

/-- The loop `while (!glfwWindowShouldClose(window)) body`, run for at most `fuel`
evaluations of the condition; `frame` numbers the iterations.  The Boolean
tells whether the loop was left. -/
def renderLoop (body : Nat → State → State) : Nat → Nat → State → Bool × State
  | 0, _, s => (false, s)
  | fuel + 1, frame, s =>
      let s := s.call Call.glfwWindowShouldClose
      if s.shouldClose then (true, s)
      else renderLoop body fuel (frame + 1) (body frame s)

/-! The program of `window.cpp`. -/

/-- Lines 24-54 of `window.cpp`: everything before the loop.  `Except.error`
is an early `return -1`, carrying the state at that point. -/
def window_setup (w : World) : Except State State :=
  let s := State.init
  let s := s.call Call.glfwInit
  let s := s.call (Call.glfwWindowHint Hint.contextVersionMajor (HintValue.num 3))
  let s := s.call (Call.glfwWindowHint Hint.contextVersionMinor (HintValue.num 3))
  let s := s.call (Call.glfwWindowHint Hint.openglProfile HintValue.coreProfile)
  let s := s.call (Call.glfwCreateWindow WINDOW_WIDTH WINDOW_HEIGHT "LearnOpenGL")
  if !w.windowCreated then
    let s := s.print "Failed to create GLFW window\n"
    let s := s.call Call.glfwTerminate
    Except.error s
  else
    let s := s.call Call.glfwMakeContextCurrent
    let s := s.call Call.gladLoadGLLoader
    if !w.loaderOk then
      let s := s.print "Failed to initialize GLAD\n"
      Except.error s
    else
      let s := glViewport 0 0 WINDOW_WIDTH WINDOW_HEIGHT s
      let s := glfwSetFramebufferSizeCallback s
      Except.ok s

/-- Lines 59-65 of `window.cpp`: the body of the loop. -/
def window_frame (w : World) (frame : Nat) (s : State) : State :=
  let s := processInput (w.frames frame).escapePressed s
  let s := s.call (Call.glClearColor 0.2 0.3 0.3 1.0)
  let s := s.call Call.glClear
  let s := s.call Call.glfwSwapBuffers
  glfwPollEvents (w.frames frame).events s

/-- The function `main` of `window.cpp`.  The result is the exit code (`none` when the
loop was still running after `fuel` evaluations of its condition) and the
final state. -/
def window_main (w : World) (fuel : Nat) : Option Int × State :=
  match window_setup w with
  | Except.error s => (some (-1), s)
  | Except.ok s =>
      let r := renderLoop (window_frame w) fuel 0 s
      if r.1 then (some 0, r.2.call Call.glfwTerminate) else (none, r.2)

/-! The program of `triangle.cpp`. -/

/-- Lines 33-54 of `triangle.cpp`: window, context, loader, viewport, callback. -/
def triangle_init (w : World) : Except State State :=
  let s := State.init
  let s := s.call Call.glfwInit
  let s := s.call (Call.glfwWindowHint Hint.contextVersionMajor (HintValue.num 3))
  let s := s.call (Call.glfwWindowHint Hint.contextVersionMinor (HintValue.num 3))
  let s := s.call (Call.glfwWindowHint Hint.openglProfile HintValue.coreProfile)
  let s := s.call (Call.glfwCreateWindow WINDOW_WIDTH WINDOW_HEIGHT "LearnOpenGL")
  if !w.windowCreated then
    let s := s.print "Failed to create GLFW window\n"
    let s := s.call Call.glfwTerminate
    Except.error s
  else
    let s := s.call Call.glfwMakeContextCurrent
    let s := s.call Call.gladLoadGLLoader
    if !w.loaderOk then
      let s := s.print "Failed to initialize GLAD\n"
      Except.error s
    else
      let s := glViewport 0 0 WINDOW_WIDTH WINDOW_HEIGHT s
      let s := glfwSetFramebufferSizeCallback s
      Except.ok s

/-- Lines 61-116 of `triangle.cpp`: create and compile both shaders, check
each compile status, create the program, attach, link, check the link status. -/
def triangle_shaderBuild (w : World) (s : State) : State :=
  let s := s.call (Call.glCreateShader ShaderStage.vertex w.vertexShader)
  let s := s.call (Call.glShaderSource w.vertexShader vertexShaderSource)
  let s := s.call (Call.glCompileShader w.vertexShader)
  let s := s.call (Call.glGetShaderiv w.vertexShader)
  let s :=
    if w.vertexSuccess = 0 then
      let s := s.call (Call.glGetShaderInfoLog w.vertexShader 512)
      s.print (vertexErrorHeader ++ infoLog 512 w.vertexLog ++ "\n")
    else s
  let s := s.call (Call.glCreateShader ShaderStage.fragment w.fragmentShader)
  let s := s.call (Call.glShaderSource w.fragmentShader fragmentShaderSource)
  let s := s.call (Call.glCompileShader w.fragmentShader)
  let s := s.call (Call.glGetShaderiv w.fragmentShader)
  let s :=
    if w.fragmentSuccess = 0 then
      let s := s.call (Call.glGetShaderInfoLog w.fragmentShader 512)
      s.print (fragmentErrorHeader ++ infoLog 512 w.fragmentLog ++ "\n")
    else s
  let s := s.call (Call.glCreateProgram w.shaderProgram)
  let s := s.call (Call.glAttachShader w.shaderProgram w.vertexShader)
  let s := s.call (Call.glAttachShader w.shaderProgram w.fragmentShader)
  let s := s.call (Call.glLinkProgram w.shaderProgram)
  let s := s.call (Call.glGetProgramiv w.shaderProgram)
  if w.programSuccess = 0 then
    let s := s.call (Call.glGetProgramInfoLog w.shaderProgram 512)
    s.print (programErrorHeader ++ infoLog 512 w.programLog ++ "\n")
  else s

/-- Lines 119-175 of `triangle.cpp`: delete the shaders, create the vertex
array and the vertex buffer, upload the vertices, describe the attribute. -/
def triangle_buffers (w : World) (s : State) : State :=
  let s := s.call (Call.glDeleteShader w.vertexShader)
  let s := s.call (Call.glDeleteShader w.fragmentShader)
  let s := s.call (Call.glGenVertexArrays 1 w.VAO)
  let s := s.call (Call.glBindVertexArray w.VAO)
  let s := s.call (Call.glGenBuffers 1 w.VBO)
  let s := s.call (Call.glBindBuffer BufferTarget.arrayBuffer w.VBO)
  let s := s.call (Call.glBufferData BufferTarget.arrayBuffer
    (triangle_vertices.length * sizeofFloat) (BufferData.floats triangle_vertices))
  let s := s.call (Call.glVertexAttribPointer 0 attribSize attribStride attribOffset)
  s.call (Call.glEnableVertexAttribArray 0)

/-- Lines 179-190 of `triangle.cpp`: the body of the loop. -/
def triangle_frame (w : World) (frame : Nat) (s : State) : State :=
  let s := processInput (w.frames frame).escapePressed s
  let s := s.call (Call.glClearColor 0.2 0.3 0.3 1.0)
  let s := s.call Call.glClear
  let s := s.call (Call.glUseProgram w.shaderProgram)
  let s := s.call (Call.glBindVertexArray w.VAO)
  let s := s.call (Call.glDrawArrays DrawMode.triangles triangle_drawFirst triangle_drawCount)
  let s := s.call Call.glfwSwapBuffers
  glfwPollEvents (w.frames frame).events s

/-- Everything `triangle.cpp` does before its loop (lines 33-175). -/
def triangle_setup (w : World) : Except State State :=
  match triangle_init w with
  | Except.error s => Except.error s
  | Except.ok s => Except.ok (triangle_buffers w (triangle_shaderBuild w s))

/-- The function `main` of `triangle.cpp`; the result is as for `window_main`. -/
def triangle_main (w : World) (fuel : Nat) : Option Int × State :=
  match triangle_setup w with
  | Except.error s => (some (-1), s)
  | Except.ok s =>
      let r := renderLoop (triangle_frame w) fuel 0 s
      if r.1 then (some 0, r.2.call Call.glfwTerminate) else (none, r.2)

/-! The program of `square.cpp`. -/

/-- Lines 33-54 of `square.cpp`: window, context, callback, loader, viewport. -/
def square_init (w : World) : Except State State :=
  let s := State.init
  let s := s.call Call.glfwInit
  let s := s.call (Call.glfwWindowHint Hint.contextVersionMajor (HintValue.num 3))
  let s := s.call (Call.glfwWindowHint Hint.contextVersionMinor (HintValue.num 3))
  let s := s.call (Call.glfwWindowHint Hint.openglProfile HintValue.coreProfile)
  let s := s.call (Call.glfwCreateWindow WINDOW_WIDTH WINDOW_HEIGHT "LearnOpenGL")
  if !w.windowCreated then
    let s := s.print "Failed to create GLFW window\n"
    let s := s.call Call.glfwTerminate
    Except.error s
  else
    let s := s.call Call.glfwMakeContextCurrent
    let s := glfwSetFramebufferSizeCallback s
    let s := s.call Call.gladLoadGLLoader
    if !w.loaderOk then
      let s := s.print "Failed to initialize GLAD\n"
      Except.error s
    else
      let s := glViewport 0 0 WINDOW_WIDTH WINDOW_HEIGHT s
      Except.ok s

/-- Lines 56-99 of `square.cpp`: create both shaders, compile both, check both
compile statuses, create the program, attach, link, check the link status. -/
def square_shaderBuild (w : World) (s : State) : State :=
  let s := s.call (Call.glCreateShader ShaderStage.vertex w.vertexShader)
  let s := s.call (Call.glCreateShader ShaderStage.fragment w.fragmentShader)
  let s := s.call (Call.glShaderSource w.vertexShader vertexShaderSource)
  let s := s.call (Call.glCompileShader w.vertexShader)
  let s := s.call (Call.glShaderSource w.fragmentShader fragmentShaderSource)
  let s := s.call (Call.glCompileShader w.fragmentShader)
  let s := s.call (Call.glGetShaderiv w.vertexShader)
  let s :=
    if w.vertexSuccess = 0 then
      let s := s.call (Call.glGetShaderInfoLog w.vertexShader 512)
      s.print (vertexErrorHeader ++ infoLog 512 w.vertexLog ++ "\n")
    else s
  let s := s.call (Call.glGetShaderiv w.fragmentShader)
  let s :=
    if w.fragmentSuccess = 0 then
      let s := s.call (Call.glGetShaderInfoLog w.fragmentShader 512)
      s.print (fragmentErrorHeader ++ infoLog 512 w.fragmentLog ++ "\n")
    else s
  let s := s.call (Call.glCreateProgram w.shaderProgram)
  let s := s.call (Call.glAttachShader w.shaderProgram w.vertexShader)
  let s := s.call (Call.glAttachShader w.shaderProgram w.fragmentShader)
  let s := s.call (Call.glLinkProgram w.shaderProgram)
  let s := s.call (Call.glGetProgramiv w.shaderProgram)
  if w.programSuccess = 0 then
    let s := s.call (Call.glGetProgramInfoLog w.shaderProgram 512)
    s.print (programErrorHeader ++ infoLog 512 w.programLog ++ "\n")
  else s

/-- Lines 101-133 of `square.cpp`: delete the shaders, create the vertex
array, the vertex buffer and the element buffer, upload vertices and indices,
describe the attribute. -/
def square_buffers (w : World) (s : State) : State :=
  let s := s.call (Call.glDeleteShader w.vertexShader)
  let s := s.call (Call.glDeleteShader w.fragmentShader)
  let s := s.call (Call.glGenVertexArrays 1 w.VAO)
  let s := s.call (Call.glBindVertexArray w.VAO)
  let s := s.call (Call.glGenBuffers 1 w.VBO)
  let s := s.call (Call.glBindBuffer BufferTarget.arrayBuffer w.VBO)
  let s := s.call (Call.glBufferData BufferTarget.arrayBuffer
    (square_vertices.length * sizeofFloat) (BufferData.floats square_vertices))
  let s := s.call (Call.glGenBuffers 1 w.EBO)
  let s := s.call (Call.glBindBuffer BufferTarget.elementArrayBuffer w.EBO)
  let s := s.call (Call.glBufferData BufferTarget.elementArrayBuffer
    (square_indices.length * sizeofUInt) (BufferData.uints square_indices))
  let s := s.call (Call.glVertexAttribPointer 0 attribSize attribStride attribOffset)
  s.call (Call.glEnableVertexAttribArray 0)

/-- Lines 137-147 of `square.cpp`: the body of the loop. -/
def square_frame (w : World) (frame : Nat) (s : State) : State :=
  let s := processInput (w.frames frame).escapePressed s
  let s := s.call (Call.glClearColor 0.2 0.3 0.3 1.0)
  let s := s.call Call.glClear
  let s := s.call (Call.glUseProgram w.shaderProgram)
  let s := s.call (Call.glBindVertexArray w.VAO)
  let s := s.call (Call.glDrawElements DrawMode.triangles square_drawCount 0)
  let s := s.call Call.glfwSwapBuffers
  glfwPollEvents (w.frames frame).events s

/-- Everything `square.cpp` does before its loop (lines 33-133). -/
def square_setup (w : World) : Except State State :=
  match square_init w with
  | Except.error s => Except.error s
  | Except.ok s => Except.ok (square_buffers w (square_shaderBuild w s))

/-- The function `main` of `square.cpp`; the result is as for `window_main`. -/
def square_main (w : World) (fuel : Nat) : Option Int × State :=
  match square_setup w with
  | Except.error s => (some (-1), s)
  | Except.ok s =>
      let r := renderLoop (square_frame w) fuel 0 s
      if r.1 then (some 0, r.2.call Call.glfwTerminate) else (none, r.2)

/-! The three programs side by side. -/

/-- The three programs of the repository. -/
inductive Program
  | window
  | triangle
  | square
  deriving DecidableEq, Repr

/-- Everything a program does before its loop. -/
def setup : Program → World → Except State State
  | Program.window => window_setup
  | Program.triangle => triangle_setup
  | Program.square => square_setup

/-- The body of the loop of a program. -/
def frameBody : Program → World → Nat → State → State
  | Program.window => window_frame
  | Program.triangle => triangle_frame
  | Program.square => square_frame

/-- The function `main` of a program. -/
def main : Program → World → Nat → Option Int × State
  | Program.window => window_main
  | Program.triangle => triangle_main
  | Program.square => square_main

/-! Vocabulary used to state the properties. -/

/-- The `glViewport` calls made by the resize callback while the events of one
`glfwPollEvents` call are handled (callback registered). -/
def resizeCalls : List WindowEvent → List Call
  | [] => []
  | WindowEvent.framebufferResize width height :: es =>
      Call.glViewport 0 0 width height :: resizeCalls es
  | WindowEvent.closeRequest :: es => resizeCalls es

/-- The size carried by the last framebuffer resize among some events. -/
def lastResize : List WindowEvent → Option (Int × Int)
  | [] => none
  | WindowEvent.framebufferResize width height :: es =>
      match lastResize es with
      | some r => some r
      | none => some (width, height)
  | WindowEvent.closeRequest :: es => lastResize es

/-- Whether some event is a close request. -/
def closeRequested : List WindowEvent → Bool
  | [] => false
  | WindowEvent.framebufferResize _ _ :: es => closeRequested es
  | WindowEvent.closeRequest :: _ => true

/-- The calls of `processInput`. -/
def inputCalls (escape : Bool) : List Call :=
  Call.glfwGetKey :: (if escape then [Call.glfwSetWindowShouldClose true] else [])

/-- The binding and draw calls of one iteration. -/
def drawCalls : Program → World → List Call
  | Program.window, _ => []
  | Program.triangle, w =>
      [Call.glUseProgram w.shaderProgram, Call.glBindVertexArray w.VAO,
       Call.glDrawArrays DrawMode.triangles triangle_drawFirst triangle_drawCount]
  | Program.square, w =>
      [Call.glUseProgram w.shaderProgram, Call.glBindVertexArray w.VAO,
       Call.glDrawElements DrawMode.triangles square_drawCount 0]

/-- The calls of iteration `frame` of the loop, after the evaluation of its
condition (callback registered). -/
def frameCalls (p : Program) (w : World) (frame : Nat) : List Call :=
  inputCalls (w.frames frame).escapePressed
    ++ [Call.glClearColor 0.2 0.3 0.3 1.0, Call.glClear]
    ++ drawCalls p w
    ++ [Call.glfwSwapBuffers, Call.glfwPollEvents]
    ++ resizeCalls (w.frames frame).events

/-- The state after `n` iterations of the loop of a program started in `s` at
iteration `frame`, each preceded by the evaluation of the condition. -/
def iterate (p : Program) (w : World) : Nat → Nat → State → State
  | 0, _, s => s
  | n + 1, frame, s =>
      iterate p w n (frame + 1) (frameBody p w frame (s.call Call.glfwWindowShouldClose))

/-- The state in which a program reaches its loop, when it does. -/
def entryState (p : Program) (w : World) : Option State :=
  match setup p w with
  | Except.error _ => none
  | Except.ok s => some s

/-- Calls that the programs make only from inside the loop: the evaluation of
its condition, input sampling, clear, draw, swap and poll. -/
def isLoopCall : Call → Bool
  | Call.glfwWindowShouldClose => true
  | Call.glfwGetKey => true
  | Call.glfwSetWindowShouldClose _ => true
  | Call.glClearColor _ _ _ _ => true
  | Call.glClear => true
  | Call.glUseProgram _ => true
  | Call.glDrawArrays _ _ _ => true
  | Call.glDrawElements _ _ _ => true
  | Call.glfwSwapBuffers => true
  | Call.glfwPollEvents => true
  | _ => false

/-- The calls made by the loop of a program, run for at most `fuel`
evaluations of its condition from iteration `frame`, when the close flag is
`closed` on entry (callback registered). -/
def loopTrace (p : Program) (w : World) : Nat → Nat → Bool → List Call
  | 0, _, _ => []
  | fuel + 1, frame, closed =>
      Call.glfwWindowShouldClose ::
        (if closed then []
         else frameCalls p w frame ++
           loopTrace p w fuel (frame + 1)
             ((w.frames frame).escapePressed || closeRequested (w.frames frame).events))

/-- Whether the loop is left within `fuel` evaluations of its condition. -/
def loopExits (w : World) : Nat → Nat → Bool → Bool
  | 0, _, _ => false
  | fuel + 1, frame, closed =>
      if closed then true
      else loopExits w fuel (frame + 1)
        ((w.frames frame).escapePressed || closeRequested (w.frames frame).events)

/-- The calls a program makes before its loop (or before its early return). -/
def setupTrace (p : Program) (w : World) : List Call :=
  match setup p w with
  | Except.error s => s.trace
  | Except.ok s => s.trace

/-! Geometry drawn by the square and triangle programs. -/

/-- A point of the plane, over exact rationals. -/
abbrev Point := ℚ × ℚ

/-- The position attribute of vertex `i` as `glVertexAttribPointer(0, 3,
GL_FLOAT, GL_FALSE, 3 * sizeof(float), (void *)0)` lays it out: the three
consecutive floats starting at float `3 * i` of the vertex buffer. -/
def vertexAt (vs : List ℚ) (i : Nat) : ℚ × ℚ × ℚ :=
  (vs.getD (attribSize * i) 0, vs.getD (attribSize * i + 1) 0,
   vs.getD (attribSize * i + 2) 0)

/-- The x and y coordinates of vertex `i`. -/
def positionAt (vs : List ℚ) (i : Nat) : Point :=
  ((vertexAt vs i).1, (vertexAt vs i).2.1)

/-- Primitive assembly for `GL_TRIANGLES`: every three consecutive indices
form one triangle; a remainder of fewer than three is dropped. -/
def assembleTriangles : List Nat → List (Nat × Nat × Nat)
  | a :: b :: c :: rest => (a, b, c) :: assembleTriangles rest
  | _ => []

/-- The index triples drawn by `glDrawElements(GL_TRIANGLES, 6, GL_UNSIGNED_INT, 0)`
in the square program. -/
def square_triangles : List (Nat × Nat × Nat) :=
  assembleTriangles (square_indices.take square_drawCount)

/-- Twice the signed area of the triangle `a b q`: positive when `q` lies to
the left of the directed line from `a` to `b`. -/
def orient (a b q : Point) : ℚ :=
  (b.1 - a.1) * (q.2 - a.2) - (b.2 - a.2) * (q.1 - a.1)

/-- The point `q` lies in the closed triangle `a b c`: it is on the same side
of the three edges (or on them). -/
def inTriangle (a b c q : Point) : Prop :=
  (0 ≤ orient a b q ∧ 0 ≤ orient b c q ∧ 0 ≤ orient c a q) ∨
  (orient a b q ≤ 0 ∧ orient b c q ≤ 0 ∧ orient c a q ≤ 0)

/-- The point `q` lies in the interior of the triangle `a b c`. -/
def inInterior (a b c q : Point) : Prop :=
  (0 < orient a b q ∧ 0 < orient b c q ∧ 0 < orient c a q) ∨
  (orient a b q < 0 ∧ orient b c q < 0 ∧ orient c a q < 0)

/-- The point `q` lies on the closed segment from `a` to `b`. -/
def onSegment (a b q : Point) : Prop :=
  ∃ t : ℚ, 0 ≤ t ∧ t ≤ 1 ∧ q = ((1 - t) * a.1 + t * b.1, (1 - t) * a.2 + t * b.2)

/-- The closed square of side 1 centred at the origin. -/
def inUnitSquare (q : Point) : Prop :=
  -(1 / 2) ≤ q.1 ∧ q.1 ≤ 1 / 2 ∧ -(1 / 2) ≤ q.2 ∧ q.2 ≤ 1 / 2

/-- The triangle with the given three indices into the square vertex data contains `q`. -/
def squareTriangleHas (t : Nat × Nat × Nat) (q : Point) : Prop :=
  inTriangle (positionAt square_vertices t.1) (positionAt square_vertices t.2.1)
    (positionAt square_vertices t.2.2) q

/-- The interior of the triangle with the given three indices into the square
vertex data contains `q`. -/
def squareInteriorHas (t : Nat × Nat × Nat) (q : Point) : Prop :=
  inInterior (positionAt square_vertices t.1) (positionAt square_vertices t.2.1)
    (positionAt square_vertices t.2.2) q

/-- The final state carried by either outcome of a setup phase. -/
def outcomeState : Except State State → State
  | Except.error s => s
  | Except.ok s => s

/-- The calls of the first phase of a program: window, context, loader,
viewport and callback (up to the early return, if any). -/
def initTrace : Program → World → List Call
  | Program.window, w => (outcomeState (window_setup w)).trace
  | Program.triangle, w => (outcomeState (triangle_init w)).trace
  | Program.square, w => (outcomeState (square_init w)).trace

/-- The calls of the shader build of a program, through the link-status
check and its diagnostic (none in the window program). -/
def buildTrace : Program → World → List Call
  | Program.window, _ => []
  | Program.triangle, w => (triangle_shaderBuild w State.init).trace
  | Program.square, w => (square_shaderBuild w State.init).trace

/-- The calls a program makes between the link-status check and the loop:
shader deletion and buffer setup (none in the window program). -/
def bufferTrace : Program → World → List Call
  | Program.window, _ => []
  | Program.triangle, w => (triangle_buffers w State.init).trace
  | Program.square, w => (square_buffers w State.init).trace

/-! Vocabulary for the shader build. -/

/-- Whether a call names the shader object `h`: as the result of
`glCreateShader` or as the shader argument of a later call. -/
def refersToShader (h : Nat) : Call → Bool
  | Call.glCreateShader _ result => decide (result = h)
  | Call.glShaderSource shader _ => decide (shader = h)
  | Call.glCompileShader shader => decide (shader = h)
  | Call.glGetShaderiv shader => decide (shader = h)
  | Call.glGetShaderInfoLog shader _ => decide (shader = h)
  | Call.glAttachShader _ shader => decide (shader = h)
  | Call.glDeleteShader shader => decide (shader = h)
  | _ => false

/-- The six steps in the life of a shader object: create, source upload,
compile, compile-status query, attach, delete. -/
def isLifecycleCall : Call → Bool
  | Call.glCreateShader _ _ => true
  | Call.glShaderSource _ _ => true
  | Call.glCompileShader _ => true
  | Call.glGetShaderiv _ => true
  | Call.glAttachShader _ _ => true
  | Call.glDeleteShader _ => true
  | _ => false

/-- The calls that build the program object out of the shaders: program
creation, attach, link, link-status query, and the shader deletions. -/
def isLinkStep : Call → Bool
  | Call.glCreateProgram _ => true
  | Call.glAttachShader _ _ => true
  | Call.glLinkProgram _ => true
  | Call.glGetProgramiv _ => true
  | Call.glDeleteShader _ => true
  | _ => false

/-- Whether a call is one of the six steps in the life of the shader object `h`. -/
def lifecycleOf (h : Nat) (c : Call) : Bool :=
  isLifecycleCall c && refersToShader h c

/-- Whether a call is a write to standard output. -/
def isPrintCall : Call → Bool
  | Call.print _ => true
  | _ => false

/-- Whether a call is a draw call. -/
def isDrawCall : Call → Bool
  | Call.glDrawArrays _ _ _ => true
  | Call.glDrawElements _ _ _ => true
  | _ => false

/-- The environment `w` with the three statuses replaced by success (`GL_TRUE`). -/
def allSucceed (w : World) : World :=
  { w with vertexSuccess := 1, fragmentSuccess := 1, programSuccess := 1 }

/-! Sample environments. -/

/-- An environment in which everything succeeds, no key is ever pressed and no
event ever arrives. -/
def worldQuiet : World :=
  { windowCreated := true, loaderOk := true,
    vertexShader := 1, fragmentShader := 2, shaderProgram := 3,
    vertexSuccess := 1, fragmentSuccess := 1, programSuccess := 1,
    vertexLog := "", fragmentLog := "", programLog := "",
    VAO := 1, VBO := 1, EBO := 2,
    frames := fun _ => { escapePressed := false, events := [] } }

/-- An environment in which `glfwCreateWindow` returns NULL. -/
def worldNoWindow : World := { worldQuiet with windowCreated := false }

/-- An environment in which the window is created and `gladLoadGLLoader` fails. -/
def worldNoLoader : World := { worldQuiet with loaderOk := false }

/-- An environment in which everything succeeds and the escape key is down
during the second frame (frame number 1). -/
def worldEscape : World :=
  { worldQuiet with
    frames := fun i => { escapePressed := decide (i = 1), events := [] } }

/-- An environment in which the framebuffer is resized to 1024 x 768 during
the first frame and the user asks to close the window during the second. -/
def worldResize : World :=
  { worldQuiet with
    frames := fun i =>
      { escapePressed := false,
        events := if i = 0 then [WindowEvent.framebufferResize 1024 768]
                  else [WindowEvent.closeRequest] } }

/-- An environment in which both shaders fail to compile and the program fails
to link, and the escape key is down during the first frame. -/
def worldBadShaders : World :=
  { worldQuiet with
    vertexSuccess := 0, fragmentSuccess := 0, programSuccess := 0,
    vertexLog := "0:1: unexpected token", fragmentLog := "0:2: unexpected token",
    programLog := "link error",
    frames := fun _ => { escapePressed := true, events := [] } }

/-! Basic facts about the state functions. -/

@[simp] theorem call_trace (s : State) (c : Call) : (s.call c).trace = s.trace ++ [c] := rfl

@[simp] theorem call_shouldClose (s : State) (c : Call) :
    (s.call c).shouldClose = s.shouldClose := rfl

@[simp] theorem call_viewport (s : State) (c : Call) : (s.call c).viewport = s.viewport := rfl

@[simp] theorem call_resizeCallback (s : State) (c : Call) :
    (s.call c).resizeCallback = s.resizeCallback := rfl

@[simp] theorem print_trace (s : State) (t : String) :
    (s.print t).trace = s.trace ++ [Call.print t] := rfl

@[simp] theorem print_shouldClose (s : State) (t : String) :
    (s.print t).shouldClose = s.shouldClose := rfl

@[simp] theorem print_viewport (s : State) (t : String) :
    (s.print t).viewport = s.viewport := rfl

@[simp] theorem print_resizeCallback (s : State) (t : String) :
    (s.print t).resizeCallback = s.resizeCallback := rfl

theorem processInput_trace (b : Bool) (s : State) :
    (processInput b s).trace = s.trace ++ inputCalls b := by
  cases b <;> simp [processInput, inputCalls, glfwSetWindowShouldClose]

theorem processInput_shouldClose (b : Bool) (s : State) :
    (processInput b s).shouldClose = (b || s.shouldClose) := by
  cases b <;> simp [processInput, glfwSetWindowShouldClose]

theorem processInput_viewport (b : Bool) (s : State) :
    (processInput b s).viewport = s.viewport := by
  cases b <;> simp [processInput, glfwSetWindowShouldClose]

theorem processInput_resizeCallback (b : Bool) (s : State) :
    (processInput b s).resizeCallback = s.resizeCallback := by
  cases b <;> simp [processInput, glfwSetWindowShouldClose]

theorem foldl_dispatch_resizeCallback (es : List WindowEvent) (s : State) :
    (es.foldl dispatch s).resizeCallback = s.resizeCallback := by
  induction es generalizing s with
  | nil => rfl
  | cons e es ih =>
    cases e with
    | framebufferResize width height =>
      simp only [List.foldl_cons, ih]
      cases h : s.resizeCallback <;>
        simp [dispatch, h, framebuffer_size_callback, glViewport]
    | closeRequest => simp only [List.foldl_cons, ih, dispatch]

theorem foldl_dispatch_trace (es : List WindowEvent) (s : State)
    (h : s.resizeCallback = true) :
    (es.foldl dispatch s).trace = s.trace ++ resizeCalls es := by
  induction es generalizing s with
  | nil => simp [resizeCalls]
  | cons e es ih =>
    cases e with
    | framebufferResize width height =>
      simp only [List.foldl_cons]
      rw [ih]
      · simp [dispatch, h, framebuffer_size_callback, glViewport, resizeCalls]
      · simp [dispatch, h, framebuffer_size_callback, glViewport]
    | closeRequest =>
      simp only [List.foldl_cons]
      rw [ih]
      · simp [dispatch, resizeCalls]
      · simpa [dispatch] using h

theorem foldl_dispatch_shouldClose (es : List WindowEvent) (s : State) :
    (es.foldl dispatch s).shouldClose = (s.shouldClose || closeRequested es) := by
  induction es generalizing s with
  | nil => simp [closeRequested]
  | cons e es ih =>
    cases e with
    | framebufferResize width height =>
      simp only [List.foldl_cons, ih, closeRequested]
      cases h : s.resizeCallback <;>
        simp [dispatch, h, framebuffer_size_callback, glViewport]
    | closeRequest => simp [ih, dispatch, closeRequested]

theorem foldl_dispatch_viewport (es : List WindowEvent) (s : State)
    (h : s.resizeCallback = true) :
    (es.foldl dispatch s).viewport =
      match lastResize es with
      | some r => some ⟨0, 0, r.1, r.2⟩
      | none => s.viewport := by
  induction es generalizing s with
  | nil => simp [lastResize]
  | cons e es ih =>
    cases e with
    | framebufferResize width height =>
      simp only [List.foldl_cons]
      rw [ih]
      · simp only [lastResize]
        cases lastResize es <;>
          simp [dispatch, h, framebuffer_size_callback, glViewport]
      · simp [dispatch, h, framebuffer_size_callback, glViewport]
    | closeRequest =>
      simp only [List.foldl_cons]
      rw [ih]
      · simp [dispatch, lastResize]
      · simpa [dispatch] using h

theorem frameBody_resizeCallback (p : Program) (w : World) (i : Nat) (s : State) :
    (frameBody p w i s).resizeCallback = s.resizeCallback := by
  cases p <;>
    simp [frameBody, window_frame, triangle_frame, square_frame, glfwPollEvents,
      foldl_dispatch_resizeCallback, processInput_resizeCallback]

theorem frameBody_trace (p : Program) (w : World) (i : Nat) (s : State)
    (h : s.resizeCallback = true) :
    (frameBody p w i s).trace = s.trace ++ frameCalls p w i := by
  cases p <;>
    simp [frameBody, window_frame, triangle_frame, square_frame, glfwPollEvents,
      foldl_dispatch_trace, processInput_resizeCallback, processInput_trace, h,
      frameCalls, drawCalls]

theorem frameBody_shouldClose (p : Program) (w : World) (i : Nat) (s : State) :
    (frameBody p w i s).shouldClose =
      ((w.frames i).escapePressed || s.shouldClose || closeRequested (w.frames i).events) := by
  cases p <;>
    simp [frameBody, window_frame, triangle_frame, square_frame, glfwPollEvents,
      foldl_dispatch_shouldClose, processInput_shouldClose]

theorem frameBody_viewport (p : Program) (w : World) (i : Nat) (s : State)
    (h : s.resizeCallback = true) :
    (frameBody p w i s).viewport =
      match lastResize (w.frames i).events with
      | some r => some ⟨0, 0, r.1, r.2⟩
      | none => s.viewport := by
  cases p <;>
    simp [frameBody, window_frame, triangle_frame, square_frame, glfwPollEvents,
      foldl_dispatch_viewport, processInput_resizeCallback, processInput_viewport, h]

/-! The loop. -/

theorem main_eq (p : Program) (w : World) (fuel : Nat) :
    main p w fuel =
      match setup p w with
      | Except.error s => (some (-1), s)
      | Except.ok s =>
          if (renderLoop (frameBody p w) fuel 0 s).1
          then (some 0, (renderLoop (frameBody p w) fuel 0 s).2.call Call.glfwTerminate)
          else (none, (renderLoop (frameBody p w) fuel 0 s).2) := by
  cases p <;> rfl

theorem iterate_succ (p : Program) (w : World) (n i : Nat) (s : State) :
    iterate p w (n + 1) i s =
      frameBody p w (i + n) ((iterate p w n i s).call Call.glfwWindowShouldClose) := by
  induction n generalizing i s with
  | zero => simp [iterate]
  | succ n ih =>
    rw [iterate, ih, iterate]
    have : i + 1 + n = i + (n + 1) := by omega
    rw [this]

theorem iterate_resizeCallback (p : Program) (w : World) (n i : Nat) (s : State) :
    (iterate p w n i s).resizeCallback = s.resizeCallback := by
  induction n generalizing i s with
  | zero => rfl
  | succ n ih => rw [iterate, ih, frameBody_resizeCallback, call_resizeCallback]

theorem renderLoop_spec (p : Program) (w : World) (fuel i : Nat) (s : State) :
    ∃ n, n ≤ fuel ∧ (∀ k, k < n → (iterate p w k i s).shouldClose = false) ∧
      ((n = fuel ∧ renderLoop (frameBody p w) fuel i s = (false, iterate p w n i s)) ∨
       (n < fuel ∧ (iterate p w n i s).shouldClose = true ∧
          renderLoop (frameBody p w) fuel i s =
            (true, (iterate p w n i s).call Call.glfwWindowShouldClose))) := by
  induction fuel generalizing i s with
  | zero => exact ⟨0, le_refl _, by intro k hk; omega, Or.inl ⟨rfl, rfl⟩⟩
  | succ fuel ih =>
    cases hs : s.shouldClose with
    | true =>
      refine ⟨0, Nat.zero_le _, by intro k hk; omega, Or.inr ⟨Nat.succ_pos _, ?_, ?_⟩⟩
      · simpa [iterate] using hs
      · simp [renderLoop, iterate, hs]
    | false =>
      obtain ⟨n, hn, hlt, hres⟩ :=
        ih (i + 1) (frameBody p w i (s.call Call.glfwWindowShouldClose))
      refine ⟨n + 1, Nat.succ_le_succ hn, ?_, ?_⟩
      · intro k hk
        cases k with
        | zero => simpa [iterate] using hs
        | succ k => rw [iterate]; exact hlt k (by omega)
      · have hstep : renderLoop (frameBody p w) (fuel + 1) i s =
            renderLoop (frameBody p w) fuel (i + 1)
              (frameBody p w i (s.call Call.glfwWindowShouldClose)) := by
          simp [renderLoop, hs]
        rw [hstep, iterate]
        rcases hres with ⟨h1, h2⟩ | ⟨h1, h2, h3⟩
        · exact Or.inl ⟨by omega, h2⟩
        · exact Or.inr ⟨by omega, h2, h3⟩

/-- Closing the window at iteration `i + k` (escape key or close request) makes
the loop started at iteration `i` leave within `k + 2` evaluations of its
condition. -/
theorem renderLoop_exits (p : Program) (w : World) (k : Nat) :
    ∀ (fuel i : Nat) (s : State),
      ((w.frames (i + k)).escapePressed = true ∨
        closeRequested (w.frames (i + k)).events = true) →
      k + 2 ≤ fuel → (renderLoop (frameBody p w) fuel i s).1 = true := by
  induction k with
  | zero =>
    intro fuel i s h hf
    obtain ⟨f, rfl⟩ : ∃ f, fuel = f + 2 := ⟨fuel - 2, by omega⟩
    cases hs : s.shouldClose with
    | true => simp [renderLoop, hs]
    | false =>
      have hb : (frameBody p w i (s.call Call.glfwWindowShouldClose)).shouldClose = true := by
        rw [frameBody_shouldClose]
        rcases h with h | h <;> simp_all
      simp [renderLoop, hs, hb]
  | succ k ih =>
    intro fuel i s h hf
    obtain ⟨f, rfl⟩ : ∃ f, fuel = f + 1 := ⟨fuel - 1, by omega⟩
    cases hs : s.shouldClose with
    | true => simp [renderLoop, hs]
    | false =>
      have := ih f (i + 1) (frameBody p w i (s.call Call.glfwWindowShouldClose))
        (by have e : i + 1 + k = i + (k + 1) := by omega
            rw [e]; exact h) (by omega)
      simpa [renderLoop, hs] using this

/-! What happens before the loop. -/

theorem setup_windowFail (p : Program) (w : World) (h : w.windowCreated = false) :
    ∃ s, setup p w = Except.error s ∧ Call.glfwTerminate ∈ s.trace ∧
      ∀ c ∈ s.trace, isLoopCall c = false := by
  cases p <;>
    simp [setup, window_setup, triangle_setup, triangle_init, square_setup, square_init,
      State.init, h, isLoopCall]

theorem setup_loaderFail (p : Program) (w : World) (h1 : w.windowCreated = true)
    (h2 : w.loaderOk = false) :
    ∃ s, setup p w = Except.error s ∧ Call.glfwTerminate ∉ s.trace ∧
      ∀ c ∈ s.trace, isLoopCall c = false := by
  cases p <;>
    simp [setup, window_setup, triangle_setup, triangle_init, square_setup, square_init,
      State.init, h1, h2, isLoopCall, glfwSetFramebufferSizeCallback]

theorem triangle_shaderBuild_flags (w : World) (s : State) :
    (triangle_shaderBuild w s).resizeCallback = s.resizeCallback ∧
    (triangle_shaderBuild w s).viewport = s.viewport ∧
    (triangle_shaderBuild w s).shouldClose = s.shouldClose := by
  unfold triangle_shaderBuild
  by_cases hv : w.vertexSuccess = 0 <;> by_cases hf : w.fragmentSuccess = 0 <;>
    by_cases hp : w.programSuccess = 0 <;> simp [hv, hf, hp]

theorem square_shaderBuild_flags (w : World) (s : State) :
    (square_shaderBuild w s).resizeCallback = s.resizeCallback ∧
    (square_shaderBuild w s).viewport = s.viewport ∧
    (square_shaderBuild w s).shouldClose = s.shouldClose := by
  unfold square_shaderBuild
  by_cases hv : w.vertexSuccess = 0 <;> by_cases hf : w.fragmentSuccess = 0 <;>
    by_cases hp : w.programSuccess = 0 <;> simp [hv, hf, hp]

theorem setup_ok (p : Program) (w : World) (h1 : w.windowCreated = true)
    (h2 : w.loaderOk = true) :
    ∃ s, setup p w = Except.ok s ∧ s.resizeCallback = true ∧
      s.viewport = some ⟨0, 0, 800, 600⟩ ∧ s.shouldClose = false := by
  cases p
  · simp [setup, window_setup, State.init, h1, h2,
      glfwSetFramebufferSizeCallback, glViewport, WINDOW_WIDTH, WINDOW_HEIGHT]
  · simp [setup, triangle_setup, triangle_init, h1, h2, triangle_buffers,
      triangle_shaderBuild_flags, State.init,
      glfwSetFramebufferSizeCallback, glViewport, WINDOW_WIDTH, WINDOW_HEIGHT]
  · simp [setup, square_setup, square_init, h1, h2, square_buffers,
      square_shaderBuild_flags, State.init,
      glfwSetFramebufferSizeCallback, glViewport, WINDOW_WIDTH, WINDOW_HEIGHT]

theorem renderLoop_trace (p : Program) (w : World) (fuel i : Nat) (s : State)
    (h : s.resizeCallback = true) :
    (renderLoop (frameBody p w) fuel i s).2.trace =
      s.trace ++ loopTrace p w fuel i s.shouldClose := by
  induction fuel generalizing i s with
  | zero => simp [renderLoop, loopTrace]
  | succ fuel ih =>
    cases hs : s.shouldClose with
    | true => simp [renderLoop, loopTrace, hs]
    | false =>
      have hr : (frameBody p w i (s.call Call.glfwWindowShouldClose)).resizeCallback = true := by
        rw [frameBody_resizeCallback, call_resizeCallback, h]
      simp [renderLoop, loopTrace, hs, ih _ _ hr, frameBody_trace, h, frameBody_shouldClose]

theorem renderLoop_exit (p : Program) (w : World) (fuel i : Nat) (s : State) :
    (renderLoop (frameBody p w) fuel i s).1 = loopExits w fuel i s.shouldClose := by
  induction fuel generalizing i s with
  | zero => simp [renderLoop, loopExits]
  | succ fuel ih =>
    cases hs : s.shouldClose with
    | true => simp [renderLoop, loopExits, hs]
    | false => simp [renderLoop, loopExits, hs, ih, frameBody_shouldClose]

/-- Exit code and trace of a run that gets past window creation and loading. -/
theorem main_ok (p : Program) (w : World) (fuel : Nat) (h1 : w.windowCreated = true)
    (h2 : w.loaderOk = true) :
    (main p w fuel).1 = (if loopExits w fuel 0 false then some 0 else none) ∧
    (main p w fuel).2.trace =
      setupTrace p w ++ loopTrace p w fuel 0 false ++
        (if loopExits w fuel 0 false then [Call.glfwTerminate] else []) := by
  obtain ⟨s, hs, hr, -, hc⟩ := setup_ok p w h1 h2
  have ht := renderLoop_trace p w fuel 0 s hr
  have he := renderLoop_exit p w fuel 0 s
  rw [hc] at ht he
  rw [main_eq, setupTrace, hs]
  cases hx : loopExits w fuel 0 false <;> simp [he, ht, hx]

/-- Exit code and trace of a run that fails to create the window or to load. -/
theorem main_fail (p : Program) (w : World) (fuel : Nat)
    (h : w.windowCreated = false ∨ w.loaderOk = false) :
    (main p w fuel).1 = some (-1) ∧ (main p w fuel).2.trace = setupTrace p w := by
  have : ∃ s, setup p w = Except.error s := by
    cases hw : w.windowCreated with
    | false => obtain ⟨s, hs, -⟩ := setup_windowFail p w hw; exact ⟨s, hs⟩
    | true =>
      have h2 : w.loaderOk = false := by simpa [hw] using h
      obtain ⟨s, hs, -⟩ := setup_loaderFail p w hw h2; exact ⟨s, hs⟩
  obtain ⟨s, hs⟩ := this
  rw [main_eq, setupTrace, hs]
  simp

/-! Exit codes (C1) and teardown (C7). -/

/-- C1: in each of the three programs, if window creation fails, or it
succeeds and the loader fails, `main` returns -1 and its trace holds no call of
the loop (no evaluation of the condition, no input sampling, clear, draw, swap
or poll).  In every other run the exit code is 0 as soon as the loop is left
(`none` means the loop is still running after `fuel` evaluations of its
condition), and the loop is left whenever some frame has the escape key down or
a close request and `fuel` is large enough.  Hence the exit code is -1 exactly
when window creation or loading failed. -/
theorem C1_exit_code (p : Program) (w : World) (fuel : Nat) :
    ((w.windowCreated = false ∨ w.loaderOk = false) →
        (main p w fuel).1 = some (-1) ∧
        ∀ c ∈ (main p w fuel).2.trace, isLoopCall c = false) ∧
    (w.windowCreated = true → w.loaderOk = true →
        ((main p w fuel).1 = some 0 ∨ (main p w fuel).1 = none) ∧
        ∀ k, ((w.frames k).escapePressed = true ∨
              closeRequested (w.frames k).events = true) →
          k + 2 ≤ fuel → (main p w fuel).1 = some 0) ∧
    ((main p w fuel).1 = some (-1) ↔ (w.windowCreated = false ∨ w.loaderOk = false)) := by
  have hfail : (w.windowCreated = false ∨ w.loaderOk = false) →
      (main p w fuel).1 = some (-1) ∧
      ∀ c ∈ (main p w fuel).2.trace, isLoopCall c = false := by
    intro h
    obtain ⟨hc, ht⟩ := main_fail p w fuel h
    refine ⟨hc, ?_⟩
    rw [ht, setupTrace]
    cases hw : w.windowCreated with
    | false =>
      obtain ⟨s, hs, -, hl⟩ := setup_windowFail p w hw
      rw [hs]; exact hl
    | true =>
      have h2 : w.loaderOk = false := by simpa [hw] using h
      obtain ⟨s, hs, -, hl⟩ := setup_loaderFail p w hw h2
      rw [hs]; exact hl
  have hok : w.windowCreated = true → w.loaderOk = true →
      ((main p w fuel).1 = some 0 ∨ (main p w fuel).1 = none) ∧
      ∀ k, ((w.frames k).escapePressed = true ∨
            closeRequested (w.frames k).events = true) →
        k + 2 ≤ fuel → (main p w fuel).1 = some 0 := by
    intro h1 h2
    obtain ⟨hc, -⟩ := main_ok p w fuel h1 h2
    refine ⟨?_, ?_⟩
    · rw [hc]; cases loopExits w fuel 0 false <;> simp
    · intro k hk hf
      obtain ⟨s, -, -, -, hcl⟩ := setup_ok p w h1 h2
      have h := renderLoop_exits p w k fuel 0 s (by simpa using hk) hf
      rw [renderLoop_exit, hcl] at h
      rw [hc, h]; rfl
  refine ⟨hfail, hok, ⟨?_, fun h => (hfail h).1⟩⟩
  intro h
  by_contra hn
  have h1 : w.windowCreated = true := by
    cases hw : w.windowCreated
    · exact absurd (Or.inl hw) hn
    · rfl
  have h2 : w.loaderOk = true := by
    cases hl : w.loaderOk
    · exact absurd (Or.inr hl) hn
    · rfl
  rcases (hok h1 h2).1 with h0 | h0 <;> rw [h0] at h <;> simp at h

/-- C1, at concrete inputs: the square program returns -1 when the loader
fails, and the triangle program returns 0 when the escape key is pressed
during the second frame. -/
theorem C1_exit_code_witness :
    (main Program.square worldNoLoader 5).1 = some (-1) ∧
    (main Program.triangle worldEscape 5).1 = some 0 :=
  ⟨((C1_exit_code Program.square worldNoLoader 5).1 (Or.inr rfl)).1,
   ((C1_exit_code Program.triangle worldEscape 5).2.1 rfl rfl).2 1 (Or.inl rfl)
     (by decide)⟩

/-- C7, at the failing input: when the window is created and the loader fails,
each of the three programs returns -1 without any call to `glfwTerminate`,
although `glfwInit` and `glfwCreateWindow` were called; the return path for a
failed window creation does call `glfwTerminate`. -/
theorem C7_loader_failure_skips_terminate (p : Program) (fuel : Nat) :
    (main p worldNoLoader fuel).1 = some (-1) ∧
    Call.glfwInit ∈ (main p worldNoLoader fuel).2.trace ∧
    Call.glfwCreateWindow 800 600 "LearnOpenGL" ∈ (main p worldNoLoader fuel).2.trace ∧
    Call.glfwTerminate ∉ (main p worldNoLoader fuel).2.trace ∧
    Call.glfwTerminate ∈ (main p worldNoWindow fuel).2.trace := by
  obtain ⟨hc, ht⟩ := main_fail p worldNoLoader fuel (Or.inr rfl)
  obtain ⟨-, ht2⟩ := main_fail p worldNoWindow fuel (Or.inl rfl)
  rw [hc, ht, ht2]
  cases p <;>
    simp [setupTrace, setup, window_setup, triangle_setup, triangle_init, square_setup,
      square_init, State.init, worldNoLoader, worldNoWindow, worldQuiet,
      glfwSetFramebufferSizeCallback, WINDOW_WIDTH, WINDOW_HEIGHT]

/-! The escape key (C4) and the viewport (C5). -/

/-- C4: in each of the three programs, `processInput` sets the close flag when
the escape key is reported pressed and otherwise only samples the key, leaving
the state unchanged.  When the key is pressed during an iteration started with
the flag clear, the flag is still set at the end of that iteration, so the next
evaluation of the loop condition leaves the loop: the loop runs exactly that
one iteration and no further one. -/
theorem C4_escape_closes (p : Program) (w : World) (i fuel : Nat) (s : State) :
    (processInput true s).shouldClose = true ∧
    processInput false s = s.call Call.glfwGetKey ∧
    (processInput false s).shouldClose = s.shouldClose ∧
    ((w.frames i).escapePressed = true → s.shouldClose = false →
      (frameBody p w i (s.call Call.glfwWindowShouldClose)).shouldClose = true ∧
      renderLoop (frameBody p w) (fuel + 2) i s =
        (true, (frameBody p w i (s.call Call.glfwWindowShouldClose)).call
          Call.glfwWindowShouldClose)) := by
  refine ⟨by simp [processInput_shouldClose], by simp [processInput], rfl, ?_⟩
  intro he hs
  have hb : (frameBody p w i (s.call Call.glfwWindowShouldClose)).shouldClose = true := by
    rw [frameBody_shouldClose, he]; rfl
  exact ⟨hb, by simp [renderLoop, hs, hb]⟩

/-- C4, at a concrete input: in the triangle program with the escape key down
during frame 1, the loop entered at frame 1 with the flag clear is left after
that one iteration. -/
theorem C4_escape_closes_witness :
    renderLoop (frameBody Program.triangle worldEscape) 2 1 State.init =
      (true, (frameBody Program.triangle worldEscape 1
        (State.init.call Call.glfwWindowShouldClose)).call Call.glfwWindowShouldClose) :=
  ((C4_escape_closes Program.triangle worldEscape 1 0 State.init).2.2.2 rfl rfl).2

/-- C5: in each of the three programs, `framebuffer_size_callback` sets the
viewport to origin (0,0) with the given width and height, records that one
`glViewport` call and changes nothing else.  A run that gets past loading
enters the loop with the callback registered and the viewport (0,0,800,600).
The state of a run is always that
reached after some number of iterations.  After each iteration the viewport is that of the last framebuffer resize
delivered by the poll ending the iteration, if there was one, and is unchanged
otherwise; input sampling at the start of the next iteration does not touch it,
so this is the viewport in force when that iteration clears.  While no resize
has been delivered the viewport is (0,0,800,600). -/
theorem C5_viewport_tracks_resize (p : Program) (w : World) :
    (∀ (width height : Int) (s : State),
      framebuffer_size_callback width height s =
        { s with trace := s.trace ++ [Call.glViewport 0 0 width height],
                 viewport := some ⟨0, 0, width, height⟩ }) ∧
    (w.windowCreated = true → w.loaderOk = true →
      ∃ s0, entryState p w = some s0 ∧ s0.resizeCallback = true ∧
        s0.viewport = some ⟨0, 0, 800, 600⟩ ∧
        (∀ n, (iterate p w (n + 1) 0 s0).viewport =
          match lastResize (w.frames n).events with
          | some r => some ⟨0, 0, r.1, r.2⟩
          | none => (iterate p w n 0 s0).viewport) ∧
        (∀ n b, (processInput b
            ((iterate p w n 0 s0).call Call.glfwWindowShouldClose)).viewport =
          (iterate p w n 0 s0).viewport) ∧
        (∀ n, (∀ k, k < n → lastResize (w.frames k).events = none) →
          (iterate p w n 0 s0).viewport = some ⟨0, 0, 800, 600⟩) ∧
        (∀ fuel, ∃ n, n ≤ fuel ∧
          (main p w fuel).2.viewport = (iterate p w n 0 s0).viewport)) := by
  refine ⟨fun _ _ _ => rfl, ?_⟩
  intro h1 h2
  obtain ⟨s0, hs, hr, hv, -⟩ := setup_ok p w h1 h2
  have hstep : ∀ n, (iterate p w (n + 1) 0 s0).viewport =
      match lastResize (w.frames n).events with
      | some r => some ⟨0, 0, r.1, r.2⟩
      | none => (iterate p w n 0 s0).viewport := by
    intro n
    rw [iterate_succ, frameBody_viewport]
    · simp
    · rw [call_resizeCallback, iterate_resizeCallback, hr]
  refine ⟨s0, by simp [entryState, hs], hr, hv, hstep, ?_, ?_, ?_⟩
  · intro n b
    rw [processInput_viewport, call_viewport]
  rotate_left
  · intro fuel
    obtain ⟨n, hn, -, hres⟩ := renderLoop_spec p w fuel 0 s0
    refine ⟨n, hn, ?_⟩
    rw [main_eq, hs]
    rcases hres with ⟨-, h⟩ | ⟨-, -, h⟩ <;> simp [h]
  · intro n
    induction n with
    | zero => intro _; simpa [iterate] using hv
    | succ n ih =>
      intro hk
      rw [hstep, hk n (Nat.lt_succ_self n)]
      exact ih (fun k hlt => hk k (Nat.lt_succ_of_lt hlt))

/-- C5, at a concrete input: in the square program, after a first frame whose
poll delivers a resize to 1024 x 768, the viewport is (0,0,1024,768). -/
theorem C5_viewport_tracks_resize_witness :
    ∃ s0, entryState Program.square worldResize = some s0 ∧
      (iterate Program.square worldResize 1 0 s0).viewport = some ⟨0, 0, 1024, 768⟩ := by
  obtain ⟨s0, h0, -, -, hstep, -, -, -⟩ :=
    (C5_viewport_tracks_resize Program.square worldResize).2 rfl rfl
  exact ⟨s0, h0, by rw [hstep 0]; rfl⟩

/-! The geometry of the square (C3) and the bounds of the draw calls (C9). -/

theorem square_positions :
    positionAt square_vertices 0 = (1 / 2, 1 / 2) ∧
    positionAt square_vertices 1 = (1 / 2, -(1 / 2)) ∧
    positionAt square_vertices 2 = (-(1 / 2), -(1 / 2)) ∧
    positionAt square_vertices 3 = (-(1 / 2), 1 / 2) := by
  refine ⟨?_, ?_, ?_, ?_⟩ <;>
    simp [positionAt, vertexAt, square_vertices, attribSize] <;> norm_num

theorem square_triangles_eq : square_triangles = [(0, 1, 3), (1, 2, 3)] := by
  simp [square_triangles, square_indices, square_drawCount, assembleTriangles]

theorem square_cover (q : Point) :
    inUnitSquare q ↔ (squareTriangleHas (0, 1, 3) q ∨ squareTriangleHas (1, 2, 3) q) := by
  obtain ⟨p0, p1, p2, p3⟩ := square_positions
  obtain ⟨x, y⟩ := q
  simp only [squareTriangleHas, inTriangle, orient, inUnitSquare, p0, p1, p2, p3]
  constructor
  · rintro ⟨h1, h2, h3, h4⟩
    rcases le_total 0 (x + y) with h | h
    · left; right; refine ⟨?_, ?_, ?_⟩ <;> norm_num <;> linarith
    · right; right; refine ⟨?_, ?_, ?_⟩ <;> norm_num <;> linarith
  · rintro ((⟨h1, h2, h3⟩ | ⟨h1, h2, h3⟩) | (⟨h1, h2, h3⟩ | ⟨h1, h2, h3⟩)) <;>
      norm_num at h1 h2 h3 <;> refine ⟨?_, ?_, ?_, ?_⟩ <;> linarith

theorem square_interiors_disjoint (q : Point) :
    ¬ (squareInteriorHas (0, 1, 3) q ∧ squareInteriorHas (1, 2, 3) q) := by
  obtain ⟨p0, p1, p2, p3⟩ := square_positions
  obtain ⟨x, y⟩ := q
  simp only [squareInteriorHas, inInterior, orient, p0, p1, p2, p3]
  rintro ⟨⟨h1, h2, h3⟩ | ⟨h1, h2, h3⟩, ⟨h4, h5, h6⟩ | ⟨h4, h5, h6⟩⟩ <;>
    norm_num at h1 h2 h3 h4 h5 h6 <;> linarith

theorem square_common_forward (q : Point)
    (h : squareTriangleHas (0, 1, 3) q ∧ squareTriangleHas (1, 2, 3) q) :
    onSegment (positionAt square_vertices 1) (positionAt square_vertices 3) q := by
  obtain ⟨p0, p1, p2, p3⟩ := square_positions
  obtain ⟨x, y⟩ := q
  simp only [squareTriangleHas, inTriangle, orient, p0, p1, p2, p3] at h
  simp only [onSegment, p1, p3]
  have hx : -(1 / 2) ≤ x ∧ x ≤ 1 / 2 ∧ x + y = 0 := by
    rcases h with ⟨⟨h1, h2, h3⟩ | ⟨h1, h2, h3⟩, ⟨h4, h5, h6⟩ | ⟨h4, h5, h6⟩⟩ <;>
      norm_num at h1 h2 h3 h4 h5 h6 <;> refine ⟨?_, ?_, ?_⟩ <;> linarith
  obtain ⟨ha, hb, hc⟩ := hx
  refine ⟨1 / 2 - x, by linarith, by linarith, ?_⟩
  rw [Prod.mk.injEq]
  constructor <;> linarith

theorem square_common_backward (q : Point)
    (h : onSegment (positionAt square_vertices 1) (positionAt square_vertices 3) q) :
    squareTriangleHas (0, 1, 3) q ∧ squareTriangleHas (1, 2, 3) q := by
  obtain ⟨p0, p1, p2, p3⟩ := square_positions
  obtain ⟨x, y⟩ := q
  simp only [onSegment, p1, p3] at h
  obtain ⟨t, ht0, ht1, hq⟩ := h
  rw [Prod.mk.injEq] at hq
  obtain ⟨hx, hy⟩ := hq
  have hx' : x = 1 / 2 - t := by rw [hx]; ring
  have hy' : y = t - 1 / 2 := by rw [hy]; ring
  simp only [squareTriangleHas, inTriangle, orient, p0, p1, p2, p3]
  constructor
  · right; refine ⟨?_, ?_, ?_⟩ <;> norm_num <;> linarith
  · right; refine ⟨?_, ?_, ?_⟩ <;> norm_num <;> linarith

/-- C3: in the square program the six indices drawn assemble into exactly the
two triangles (v0,v1,v3) and (v1,v2,v3) over the positions (0.5,0.5),
(0.5,-0.5), (-0.5,-0.5), (-0.5,0.5), all four with z = 0.  A point lies in the
closed square [-0.5,0.5] x [-0.5,0.5] exactly when it lies in one of the two
closed triangles (no gap, nothing outside); no point is interior to both; and
the points common to both are exactly those of the diagonal segment from v1 to
v3. -/
theorem C3_square_two_triangles :
    square_triangles = [(0, 1, 3), (1, 2, 3)] ∧
    positionAt square_vertices 0 = (0.5, 0.5) ∧
    positionAt square_vertices 1 = (0.5, -0.5) ∧
    positionAt square_vertices 2 = (-0.5, -0.5) ∧
    positionAt square_vertices 3 = (-0.5, 0.5) ∧
    (∀ i, i < 4 → (vertexAt square_vertices i).2.2 = 0) ∧
    (∀ q : Point, inUnitSquare q ↔ ∃ t ∈ square_triangles, squareTriangleHas t q) ∧
    (∀ q : Point, ¬ (squareInteriorHas (0, 1, 3) q ∧ squareInteriorHas (1, 2, 3) q)) ∧
    (∀ q : Point, (squareTriangleHas (0, 1, 3) q ∧ squareTriangleHas (1, 2, 3) q) ↔
      onSegment (positionAt square_vertices 1) (positionAt square_vertices 3) q) := by
  obtain ⟨p0, p1, p2, p3⟩ := square_positions
  refine ⟨square_triangles_eq, ?_, ?_, ?_, ?_, ?_, ?_, square_interiors_disjoint,
    fun q => ⟨square_common_forward q, square_common_backward q⟩⟩
  · rw [p0]; norm_num
  · rw [p1]; norm_num
  · rw [p2]; norm_num
  · rw [p3]; norm_num
  · intro i hi
    interval_cases i <;> simp [vertexAt, square_vertices, attribSize] <;> norm_num
  · intro q
    rw [square_triangles_eq, square_cover]
    simp

/-- C3, at concrete points: vertex 2 has z = 0 and the centre of the square
lies in one of the two triangles. -/
theorem C3_square_two_triangles_witness :
    (vertexAt square_vertices 2).2.2 = 0 ∧
    (∃ t ∈ square_triangles, squareTriangleHas t (0, 0)) :=
  ⟨C3_square_two_triangles.2.2.2.2.2.1 2 (by decide),
   (C3_square_two_triangles.2.2.2.2.2.2.1 (0, 0)).1 (by norm_num [inUnitSquare])⟩

theorem loopTrace_mem (p : Program) (w : World) (fuel i : Nat) (closed : Bool) (c : Call)
    (h : c ∈ loopTrace p w fuel i closed) :
    c = Call.glfwWindowShouldClose ∨ ∃ k, c ∈ frameCalls p w k := by
  induction fuel generalizing i closed with
  | zero => simp [loopTrace] at h
  | succ fuel ih =>
    cases closed with
    | true => simp [loopTrace] at h; exact Or.inl h
    | false =>
      simp only [loopTrace, List.mem_cons, Bool.false_eq_true, if_false, List.mem_append] at h
      rcases h with h | h | h
      · exact Or.inl h
      · exact Or.inr ⟨i, h⟩
      · exact ih _ _ h

theorem resizeCalls_mem (es : List WindowEvent) (c : Call) (h : c ∈ resizeCalls es) :
    ∃ width height, c = Call.glViewport 0 0 width height := by
  induction es with
  | nil => simp [resizeCalls] at h
  | cons e es ih =>
    cases e with
    | framebufferResize width height =>
      simp only [resizeCalls, List.mem_cons] at h
      rcases h with h | h
      · exact ⟨width, height, h⟩
      · exact ih h
    | closeRequest => exact ih (by simpa [resizeCalls] using h)

/-- The calls of a run, each classified by where it comes from. -/
theorem main_trace_mem (p : Program) (w : World) (fuel : Nat) (c : Call)
    (h : c ∈ (main p w fuel).2.trace) :
    c ∈ setupTrace p w ∨ c = Call.glfwWindowShouldClose ∨ c = Call.glfwTerminate ∨
      ∃ k, c ∈ frameCalls p w k := by
  by_cases hok : w.windowCreated = true ∧ w.loaderOk = true
  · obtain ⟨-, ht⟩ := main_ok p w fuel hok.1 hok.2
    rw [ht] at h
    simp only [List.mem_append] at h
    rcases h with (h | h) | h
    · exact Or.inl h
    · rcases loopTrace_mem p w fuel 0 false c h with h | h
      · exact Or.inr (Or.inl h)
      · exact Or.inr (Or.inr (Or.inr h))
    · split at h
      · exact Or.inr (Or.inr (Or.inl (by simpa using h)))
      · simp at h
  · have hf : w.windowCreated = false ∨ w.loaderOk = false := by
      cases hw : w.windowCreated <;> cases hl : w.loaderOk <;> simp_all
    obtain ⟨-, ht⟩ := main_fail p w fuel hf
    rw [ht] at h
    exact Or.inl h

theorem triangle_shaderBuild_trace (w : World) (s : State) :
    (triangle_shaderBuild w s).trace = s.trace ++ buildTrace Program.triangle w := by
  unfold buildTrace triangle_shaderBuild
  by_cases hv : w.vertexSuccess = 0 <;> by_cases hf : w.fragmentSuccess = 0 <;>
    by_cases hp : w.programSuccess = 0 <;> simp [hv, hf, hp, State.init]

theorem square_shaderBuild_trace (w : World) (s : State) :
    (square_shaderBuild w s).trace = s.trace ++ buildTrace Program.square w := by
  unfold buildTrace square_shaderBuild
  by_cases hv : w.vertexSuccess = 0 <;> by_cases hf : w.fragmentSuccess = 0 <;>
    by_cases hp : w.programSuccess = 0 <;> simp [hv, hf, hp, State.init]

theorem triangle_buffers_trace (w : World) (s : State) :
    (triangle_buffers w s).trace = s.trace ++ bufferTrace Program.triangle w := by
  simp [bufferTrace, triangle_buffers, State.init]

theorem square_buffers_trace (w : World) (s : State) :
    (square_buffers w s).trace = s.trace ++ bufferTrace Program.square w := by
  simp [bufferTrace, square_buffers, State.init]

/-- The calls before the loop, phase by phase, in a run that gets past loading. -/
theorem setupTrace_ok (p : Program) (w : World) (h1 : w.windowCreated = true)
    (h2 : w.loaderOk = true) :
    setupTrace p w = initTrace p w ++ buildTrace p w ++ bufferTrace p w := by
  cases p
  · simp [setupTrace, setup, initTrace, buildTrace, bufferTrace, outcomeState]
    cases window_setup w <;> rfl
  · have : ∃ s, triangle_init w = Except.ok s := by simp [triangle_init, h1, h2]
    obtain ⟨s, hs⟩ := this
    simp [setupTrace, setup, triangle_setup, initTrace, outcomeState, hs,
      triangle_buffers_trace, triangle_shaderBuild_trace]
  · have : ∃ s, square_init w = Except.ok s := by simp [square_init, h1, h2]
    obtain ⟨s, hs⟩ := this
    simp [setupTrace, setup, square_setup, initTrace, outcomeState, hs,
      square_buffers_trace, square_shaderBuild_trace]

/-- The calls before an early return. -/
theorem setupTrace_fail (p : Program) (w : World)
    (h : w.windowCreated = false ∨ w.loaderOk = false) :
    setupTrace p w = initTrace p w := by
  cases p
  · simp [setupTrace, setup, initTrace, outcomeState]
    cases window_setup w <;> rfl
  · have : ∃ s, triangle_init w = Except.error s := by
      rcases h with h | h <;> cases hw : w.windowCreated <;> simp [triangle_init, h, hw]
    obtain ⟨s, hs⟩ := this
    simp [setupTrace, setup, triangle_setup, initTrace, outcomeState, hs]
  · have : ∃ s, square_init w = Except.error s := by
      rcases h with h | h <;> cases hw : w.windowCreated <;> simp [square_init, h, hw]
    obtain ⟨s, hs⟩ := this
    simp [setupTrace, setup, square_setup, initTrace, outcomeState, hs]

theorem initTrace_noLoopCall (p : Program) (w : World) :
    ∀ c ∈ initTrace p w, isLoopCall c = false := by
  cases p <;> cases hw : w.windowCreated <;> cases hl : w.loaderOk <;>
    simp [initTrace, outcomeState, window_setup, triangle_init, square_init, State.init,
      hw, hl, isLoopCall, glViewport, glfwSetFramebufferSizeCallback]

theorem buildTrace_noLoopCall (p : Program) (w : World) :
    ∀ c ∈ buildTrace p w, isLoopCall c = false := by
  cases p
  · simp [buildTrace]
  · by_cases hv : w.vertexSuccess = 0 <;> by_cases hf : w.fragmentSuccess = 0 <;>
      by_cases hp : w.programSuccess = 0 <;>
      simp [buildTrace, triangle_shaderBuild, State.init, hv, hf, hp, isLoopCall]
  · by_cases hv : w.vertexSuccess = 0 <;> by_cases hf : w.fragmentSuccess = 0 <;>
      by_cases hp : w.programSuccess = 0 <;>
      simp [buildTrace, square_shaderBuild, State.init, hv, hf, hp, isLoopCall]

theorem bufferTrace_noLoopCall (p : Program) (w : World) :
    ∀ c ∈ bufferTrace p w, isLoopCall c = false := by
  cases p <;>
    simp [bufferTrace, triangle_buffers, square_buffers, State.init, isLoopCall]

theorem setupTrace_noLoopCall (p : Program) (w : World) :
    ∀ c ∈ setupTrace p w, isLoopCall c = false := by
  intro c hc
  by_cases hok : w.windowCreated = true ∧ w.loaderOk = true
  · rw [setupTrace_ok p w hok.1 hok.2] at hc
    simp only [List.mem_append] at hc
    rcases hc with (hc | hc) | hc
    · exact initTrace_noLoopCall p w c hc
    · exact buildTrace_noLoopCall p w c hc
    · exact bufferTrace_noLoopCall p w c hc
  · have hf : w.windowCreated = false ∨ w.loaderOk = false := by
      cases hw : w.windowCreated <;> cases hl : w.loaderOk <;> simp_all
    rw [setupTrace_fail p w hf] at hc
    exact initTrace_noLoopCall p w c hc

theorem inputCalls_mem (b : Bool) (c : Call) (h : c ∈ inputCalls b) :
    c = Call.glfwGetKey ∨ c = Call.glfwSetWindowShouldClose true := by
  cases b <;> simp [inputCalls] at h
  · exact Or.inl h
  · exact h

theorem frameCalls_mem (p : Program) (w : World) (k : Nat) (c : Call)
    (h : c ∈ frameCalls p w k) :
    c ∈ inputCalls (w.frames k).escapePressed ∨
    c = Call.glClearColor 0.2 0.3 0.3 1.0 ∨ c = Call.glClear ∨ c ∈ drawCalls p w ∨
    c = Call.glfwSwapBuffers ∨ c = Call.glfwPollEvents ∨
    ∃ width height, c = Call.glViewport 0 0 width height := by
  have hr := resizeCalls_mem (w.frames k).events c
  simp only [frameCalls, List.mem_append, List.mem_cons, List.mem_singleton,
    List.not_mem_nil, or_false] at h
  tauto

/-- C9: the draw calls stay inside the uploaded data.  In the square program
each of the 6 indices is below 4, the number of vertices uploaded (12 floats,
48 bytes, at a stride of 12 bytes), and the draw count 6 is the length of the
index array; in the triangle program first + count = 0 + 3 is the number of
vertices uploaded (9 floats, 36 bytes, at a stride of 12 bytes).  In both the
uploaded byte size is an exact multiple of the stride `3 * sizeof(float)` and
the attribute offset is 0.  Every draw call found in the trace of a run is the
one with these arguments, and a run that gets past loading has uploaded
exactly these arrays with this layout. -/
theorem C9_draws_in_bounds (w : World) (fuel : Nat) :
    (∀ i ∈ square_indices, i < 4) ∧
    square_vertices.length = 12 ∧
    square_vertices.length * sizeofFloat / attribStride = 4 ∧
    square_drawCount = 6 ∧ square_drawCount = square_indices.length ∧
    triangle_vertices.length = 9 ∧
    triangle_vertices.length * sizeofFloat / attribStride = 3 ∧
    triangle_drawFirst + triangle_drawCount = 3 ∧
    attribStride = 3 * sizeofFloat ∧ attribOffset = 0 ∧
    (square_vertices.length * sizeofFloat) % attribStride = 0 ∧
    (triangle_vertices.length * sizeofFloat) % attribStride = 0 ∧
    (∀ c ∈ (main Program.square w fuel).2.trace,
      (∀ mode count offset, c = Call.glDrawElements mode count offset →
        mode = DrawMode.triangles ∧ count = square_drawCount ∧ offset = 0) ∧
      (∀ mode first count, c ≠ Call.glDrawArrays mode first count)) ∧
    (∀ c ∈ (main Program.triangle w fuel).2.trace,
      (∀ mode first count, c = Call.glDrawArrays mode first count →
        mode = DrawMode.triangles ∧ first = triangle_drawFirst ∧
        count = triangle_drawCount) ∧
      (∀ mode count offset, c ≠ Call.glDrawElements mode count offset)) ∧
    (w.windowCreated = true → w.loaderOk = true →
      Call.glBufferData BufferTarget.arrayBuffer 48 (BufferData.floats square_vertices) ∈
        (main Program.square w fuel).2.trace ∧
      Call.glBufferData BufferTarget.elementArrayBuffer 24 (BufferData.uints square_indices) ∈
        (main Program.square w fuel).2.trace ∧
      Call.glVertexAttribPointer 0 3 12 0 ∈ (main Program.square w fuel).2.trace ∧
      Call.glBufferData BufferTarget.arrayBuffer 36 (BufferData.floats triangle_vertices) ∈
        (main Program.triangle w fuel).2.trace ∧
      Call.glVertexAttribPointer 0 3 12 0 ∈ (main Program.triangle w fuel).2.trace) := by
  refine ⟨by decide, rfl, rfl, rfl, rfl, rfl, rfl, rfl, rfl, rfl, rfl, rfl, ?_, ?_, ?_⟩
  rotate_left 2
  · intro h1 h2
    rw [(main_ok Program.square w fuel h1 h2).2, (main_ok Program.triangle w fuel h1 h2).2,
      setupTrace_ok _ w h1 h2, setupTrace_ok _ w h1 h2]
    simp [bufferTrace, square_buffers, triangle_buffers, State.init, square_vertices,
      triangle_vertices, square_indices, sizeofFloat, sizeofUInt, attribSize, attribStride,
      attribOffset]
  · intro c hc
    rcases main_trace_mem _ _ _ c hc with h | h | h | ⟨k, h⟩
    · have := setupTrace_noLoopCall _ _ c h
      constructor
      · rintro m a b rfl; simp [isLoopCall] at this
      · rintro m a b rfl; simp [isLoopCall] at this
    · subst h; simp
    · subst h; simp
    · rcases frameCalls_mem _ _ _ _ h with h | h | h | h | h | h | ⟨a, b, h⟩
      · rcases inputCalls_mem _ c h with h | h <;> subst h <;> simp
      · subst h; simp
      · subst h; simp
      · simp only [drawCalls, List.mem_cons, List.mem_singleton, List.not_mem_nil,
          or_false] at h
        rcases h with h | h | h <;> subst h <;> simp
      · subst h; simp
      · subst h; simp
      · subst h; simp
  · intro c hc
    rcases main_trace_mem _ _ _ c hc with h | h | h | ⟨k, h⟩
    · have := setupTrace_noLoopCall _ _ c h
      constructor
      · rintro m a b rfl; simp [isLoopCall] at this
      · rintro m a b rfl; simp [isLoopCall] at this
    · subst h; simp
    · subst h; simp
    · rcases frameCalls_mem _ _ _ _ h with h | h | h | h | h | h | ⟨a, b, h⟩
      · rcases inputCalls_mem _ c h with h | h <;> subst h <;> simp
      · subst h; simp
      · subst h; simp
      · simp only [drawCalls, List.mem_cons, List.mem_singleton, List.not_mem_nil,
          or_false] at h
        rcases h with h | h | h <;> subst h <;> simp
      · subst h; simp
      · subst h; simp
      · subst h; simp

/-- C9, at a concrete input: the run of the square program in which the escape
key ends the second frame contains the draw call
`glDrawElements(GL_TRIANGLES, 6, _, 0)`,
whose count is the draw count of the program. -/
theorem C9_draws_in_bounds_witness :
    Call.glDrawElements DrawMode.triangles 6 0 ∈
      (main Program.square worldEscape 5).2.trace ∧
    (DrawMode.triangles = DrawMode.triangles ∧ 6 = square_drawCount ∧ 0 = 0) :=
  have hmem : Call.glDrawElements DrawMode.triangles 6 0 ∈
      (main Program.square worldEscape 5).2.trace := by
    rw [(main_ok Program.square worldEscape 5 rfl rfl).2]
    simp [loopTrace, frameCalls, drawCalls, square_drawCount]
  ⟨hmem, ((C9_draws_in_bounds worldEscape 5).2.2.2.2.2.2.2.2.2.2.2.2.1 _ hmem).1 _ 6 0 rfl⟩

/-! The order of the calls of one iteration (C6). -/

theorem loopTrace_frames (p : Program) (w : World) (fuel i : Nat) (closed : Bool) :
    ∃ iters : List (List Call),
      loopTrace p w fuel i closed =
        iters.flatMap (fun it => Call.glfwWindowShouldClose :: it) ++
          (if loopExits w fuel i closed then [Call.glfwWindowShouldClose] else []) ∧
      ∀ it ∈ iters, ∃ k, it = frameCalls p w k := by
  induction fuel generalizing i closed with
  | zero => exact ⟨[], by simp [loopTrace, loopExits], by simp⟩
  | succ fuel ih =>
    cases closed with
    | true => exact ⟨[], by simp [loopTrace, loopExits], by simp⟩
    | false =>
      obtain ⟨iters, h, hall⟩ := ih (i + 1)
        ((w.frames i).escapePressed || closeRequested (w.frames i).events)
      refine ⟨frameCalls p w i :: iters, ?_, ?_⟩
      · simp [loopTrace, loopExits, h]
      · intro it hit
        rcases List.mem_cons.1 hit with h | h
        · exact ⟨i, h⟩
        · exact hall it h

/-- C6, at a concrete input: in the run of the window program in which the
escape key is pressed during the second frame, the loop runs two iterations;
each is input sampling, clear, swap and poll, with no program or vertex-array
binding and no draw call: the 14 loop calls of the trace hold no draw call. -/
theorem C6_window_counterexample :
    (main Program.window worldEscape 3).1 = some 0 ∧
    (main Program.window worldEscape 3).2.trace =
      [Call.glfwInit,
       Call.glfwWindowHint Hint.contextVersionMajor (HintValue.num 3),
       Call.glfwWindowHint Hint.contextVersionMinor (HintValue.num 3),
       Call.glfwWindowHint Hint.openglProfile HintValue.coreProfile,
       Call.glfwCreateWindow 800 600 "LearnOpenGL",
       Call.glfwMakeContextCurrent,
       Call.gladLoadGLLoader,
       Call.glViewport 0 0 800 600,
       Call.glfwSetFramebufferSizeCallback,
       Call.glfwWindowShouldClose,
       Call.glfwGetKey,
       Call.glClearColor 0.2 0.3 0.3 1.0,
       Call.glClear,
       Call.glfwSwapBuffers,
       Call.glfwPollEvents,
       Call.glfwWindowShouldClose,
       Call.glfwGetKey,
       Call.glfwSetWindowShouldClose true,
       Call.glClearColor 0.2 0.3 0.3 1.0,
       Call.glClear,
       Call.glfwSwapBuffers,
       Call.glfwPollEvents,
       Call.glfwWindowShouldClose,
       Call.glfwTerminate] ∧
    (main Program.window worldEscape 3).2.trace.filter isDrawCall = [] ∧
    ((main Program.window worldEscape 3).2.trace.filter isLoopCall).length = 14 := by
  refine ⟨rfl, rfl, rfl, rfl⟩

/-- C6, as amended: in a run that gets past loading, the trace is the calls
made before the loop (none of them a loop call), then the iterations, each
started by one evaluation of the loop condition, then, when the loop is left,
the last evaluation of the condition and `glfwTerminate`.  Every iteration is,
in this order and once each: `glfwGetKey` (followed by
`glfwSetWindowShouldClose(true)` when the key is down), `glClearColor(0.2, 0.3,
0.3, 1.0)`, `glClear`, the binding and draw calls of the program,
`glfwSwapBuffers`, `glfwPollEvents` (followed by the `glViewport` calls of the
resize callback).  The binding and draw calls are `glUseProgram`,
`glBindVertexArray` and `glDrawArrays(GL_TRIANGLES, 0, 3)` in the triangle
program, the same two bindings and `glDrawElements(GL_TRIANGLES, 6, _, 0)` in
the square program, and
none in the window program. -/
theorem C6_frame_order (p : Program) (w : World) (fuel : Nat)
    (h1 : w.windowCreated = true) (h2 : w.loaderOk = true) :
    drawCalls Program.window w = [] ∧
    drawCalls Program.triangle w =
      [Call.glUseProgram w.shaderProgram, Call.glBindVertexArray w.VAO,
       Call.glDrawArrays DrawMode.triangles 0 3] ∧
    drawCalls Program.square w =
      [Call.glUseProgram w.shaderProgram, Call.glBindVertexArray w.VAO,
       Call.glDrawElements DrawMode.triangles 6 0] ∧
    ∃ iters : List (List Call),
      (main p w fuel).2.trace =
        setupTrace p w ++ iters.flatMap (fun it => Call.glfwWindowShouldClose :: it) ++
          (if (main p w fuel).1 = some 0
           then [Call.glfwWindowShouldClose, Call.glfwTerminate] else []) ∧
      (∀ c ∈ setupTrace p w, isLoopCall c = false) ∧
      ∀ it ∈ iters, ∃ a b,
        it = Call.glfwGetKey :: a ++ [Call.glClearColor 0.2 0.3 0.3 1.0, Call.glClear] ++
          drawCalls p w ++ [Call.glfwSwapBuffers, Call.glfwPollEvents] ++ b ∧
        (a = [] ∨ a = [Call.glfwSetWindowShouldClose true]) ∧
        ∀ c ∈ b, ∃ width height, c = Call.glViewport 0 0 width height := by
  refine ⟨rfl, rfl, rfl, ?_⟩
  obtain ⟨hc, ht⟩ := main_ok p w fuel h1 h2
  obtain ⟨iters, hl, hall⟩ := loopTrace_frames p w fuel 0 false
  refine ⟨iters, ?_, setupTrace_noLoopCall p w, ?_⟩
  · rw [ht, hc, hl]
    cases loopExits w fuel 0 false <;> simp
  · intro it hit
    obtain ⟨k, rfl⟩ := hall it hit
    refine ⟨if (w.frames k).escapePressed then [Call.glfwSetWindowShouldClose true] else [],
      resizeCalls (w.frames k).events, ?_, ?_, fun c hc => resizeCalls_mem _ c hc⟩
    · simp [frameCalls, inputCalls]
    · cases (w.frames k).escapePressed <;> simp

/-- C6 as amended, at a concrete input: the run of the triangle program in
which the escape key is pressed during the second frame. -/
theorem C6_frame_order_witness :
    ∃ iters : List (List Call),
      (main Program.triangle worldEscape 3).2.trace =
        setupTrace Program.triangle worldEscape ++
          iters.flatMap (fun it => Call.glfwWindowShouldClose :: it) ++
          (if (main Program.triangle worldEscape 3).1 = some 0
           then [Call.glfwWindowShouldClose, Call.glfwTerminate] else []) :=
  let ⟨iters, h, _⟩ := (C6_frame_order Program.triangle worldEscape 3 rfl rfl).2.2.2
  ⟨iters, h⟩

/-! Helper facts for the shader build (C2, C8, C10). -/

theorem loopTrace_kind (p : Program) (w : World) (fuel i : Nat) (closed : Bool) (c : Call)
    (h : c ∈ loopTrace p w fuel i closed) :
    isLoopCall c = true ∨ c = Call.glBindVertexArray w.VAO ∨
      ∃ width height, c = Call.glViewport 0 0 width height := by
  rcases loopTrace_mem p w fuel i closed c h with h | ⟨k, h⟩
  · subst h; exact Or.inl rfl
  · rcases frameCalls_mem _ _ _ _ h with h | h | h | h | h | h | h
    · rcases inputCalls_mem _ c h with h | h <;> subst h <;> exact Or.inl rfl
    · subst h; exact Or.inl rfl
    · subst h; exact Or.inl rfl
    · cases p <;>
        simp only [drawCalls, List.mem_cons, List.mem_singleton, List.not_mem_nil,
          or_false] at h
      · rcases h with h | h | h <;> subst h <;> simp [isLoopCall]
      · rcases h with h | h | h <;> subst h <;> simp [isLoopCall]
    · subst h; exact Or.inl rfl
    · subst h; exact Or.inl rfl
    · exact Or.inr (Or.inr h)

/-- A filter that rejects the calls of the loop and `glfwTerminate` keeps
nothing of the part of a trace that follows the setup. -/
theorem filter_loopTrace (f : Call → Bool) (p : Program) (w : World) (fuel : Nat)
    (hloop : ∀ c, isLoopCall c = true → f c = false)
    (hbind : ∀ a, f (Call.glBindVertexArray a) = false)
    (hview : ∀ a b, f (Call.glViewport 0 0 a b) = false)
    (hterm : f Call.glfwTerminate = false) :
    (loopTrace p w fuel 0 false ++
      (if loopExits w fuel 0 false then [Call.glfwTerminate] else [])).filter f = [] := by
  rw [List.filter_eq_nil_iff]
  intro c hc
  rw [List.mem_append] at hc
  rcases hc with hc | hc
  · rcases loopTrace_kind p w fuel 0 false c hc with h | h | ⟨a, b, h⟩
    · simp [hloop c h]
    · subst h; simp [hbind]
    · subst h; simp [hview]
  · split at hc
    · have : c = Call.glfwTerminate := by simpa using hc
      subst this; simp [hterm]
    · simp at hc

/-- If the calls selected by `f` end with `d`, which occurs only there, no
call after an occurrence of `d` in the trace is selected by `f`. -/
theorem nothing_after_last (f : Call → Bool) (d : Call) (tr xs : List Call)
    (hf : tr.filter f = xs ++ [d]) (hd : d ∉ xs) (hfd : f d = true) :
    ∀ pre post, tr = pre ++ d :: post → ∀ c ∈ post, f c = false := by
  intro pre post htr c hc
  subst htr
  by_contra hne
  have hct : f c = true := by simpa using hne
  have hmem : c ∈ post.filter f := List.mem_filter.2 ⟨hc, hct⟩
  rw [List.filter_append, List.filter_cons, if_pos hfd] at hf
  rcases List.eq_nil_or_concat (post.filter f) with h | ⟨ys, z, h⟩
  · rw [h] at hmem; simp at hmem
  · rw [h, List.concat_eq_append] at hf
    have h2 : (List.filter f pre ++ d :: ys) ++ [z] = xs ++ [d] := by
      rw [← hf]; simp
    obtain ⟨h3, -⟩ := List.append_inj' h2 rfl
    exact hd (by rw [← h3]; simp)

theorem stdout_append (a b : List Call) : stdout (a ++ b) = stdout a ++ stdout b := by
  induction a with
  | nil => simp [stdout]
  | cons c a ih => cases c <;> simp [stdout, ih, String.append_assoc]

theorem stdout_eq_empty (l : List Call) (h : ∀ c ∈ l, isPrintCall c = false) :
    stdout l = "" := by
  induction l with
  | nil => rfl
  | cons c l ih =>
    have hc := h c (List.mem_cons_self _ _)
    have hl := ih (fun x hx => h x (List.mem_cons_of_mem _ hx))
    cases c
    case print t => simp [isPrintCall] at hc
    all_goals simp [stdout, hl]

theorem stdout_loop (p : Program) (w : World) (fuel : Nat) :
    stdout (loopTrace p w fuel 0 false ++
      (if loopExits w fuel 0 false then [Call.glfwTerminate] else [])) = "" := by
  apply stdout_eq_empty
  have := filter_loopTrace isPrintCall p w fuel
    (by intro c hc; cases c <;> simp [isLoopCall] at hc <;> rfl)
    (fun _ => rfl) (fun _ _ => rfl) rfl
  rw [List.filter_eq_nil_iff] at this
  intro c hc
  simpa using this c hc

theorem diagnostic_nonempty (header log : String) (h : 0 < header.length) :
    header ++ infoLog 512 log ++ "\n" ≠ "" := by
  intro he
  have := congrArg String.length he
  rw [String.length_append, String.length_append] at this
  have h3 : "".length = 0 := by decide
  omega

theorem loopTrace_allSucceed (p : Program) (w : World) (fuel i : Nat) (closed : Bool) :
    loopTrace p (allSucceed w) fuel i closed = loopTrace p w fuel i closed := by
  induction fuel generalizing i closed with
  | zero => rfl
  | succ fuel ih =>
    cases closed with
    | true => rfl
    | false =>
      simp only [loopTrace, Bool.false_eq_true, if_false, ih]
      cases p <;> rfl

theorem loopExits_allSucceed (w : World) (fuel i : Nat) (closed : Bool) :
    loopExits (allSucceed w) fuel i closed = loopExits w fuel i closed := by
  induction fuel generalizing i closed with
  | zero => rfl
  | succ fuel ih =>
    cases closed with
    | true => rfl
    | false => simp only [loopExits, Bool.false_eq_true, if_false, ih]; rfl

/-! Shader failures are reported and ignored (C2). -/

theorem buildTrace_prints (p : Program) (hp : p = Program.triangle ∨ p = Program.square)
    (w : World) :
    (buildTrace p w).filter isPrintCall =
      (if w.vertexSuccess = 0
        then [Call.print (vertexErrorHeader ++ infoLog 512 w.vertexLog ++ "\n")] else []) ++
      (if w.fragmentSuccess = 0
        then [Call.print (fragmentErrorHeader ++ infoLog 512 w.fragmentLog ++ "\n")] else []) ++
      (if w.programSuccess = 0
        then [Call.print (programErrorHeader ++ infoLog 512 w.programLog ++ "\n")] else []) := by
  rcases hp with rfl | rfl
  · by_cases hv : w.vertexSuccess = 0 <;> by_cases hf : w.fragmentSuccess = 0 <;>
      by_cases hl : w.programSuccess = 0 <;>
      simp [buildTrace, triangle_shaderBuild, State.init, hv, hf, hl, isPrintCall,
        List.filter_cons]
  · by_cases hv : w.vertexSuccess = 0 <;> by_cases hf : w.fragmentSuccess = 0 <;>
      by_cases hl : w.programSuccess = 0 <;>
      simp [buildTrace, square_shaderBuild, State.init, hv, hf, hl, isPrintCall,
        List.filter_cons]

theorem buildTrace_last (p : Program) (hp : p = Program.triangle ∨ p = Program.square)
    (w : World) :
    (buildTrace p w).getLast? =
      some (if w.programSuccess = 0
        then Call.print (programErrorHeader ++ infoLog 512 w.programLog ++ "\n")
        else Call.glGetProgramiv w.shaderProgram) ∧
    ∀ h, Call.glDeleteShader h ∉ buildTrace p w := by
  rcases hp with rfl | rfl
  · by_cases hv : w.vertexSuccess = 0 <;> by_cases hf : w.fragmentSuccess = 0 <;>
      by_cases hl : w.programSuccess = 0 <;>
      simp [buildTrace, triangle_shaderBuild, State.init, hv, hf, hl]
  · by_cases hv : w.vertexSuccess = 0 <;> by_cases hf : w.fragmentSuccess = 0 <;>
      by_cases hl : w.programSuccess = 0 <;>
      simp [buildTrace, square_shaderBuild, State.init, hv, hf, hl]

theorem initTrace_ok_facts (p : Program) (w : World) (h1 : w.windowCreated = true)
    (h2 : w.loaderOk = true) :
    (initTrace p w).filter isPrintCall = [] ∧
    (∀ h, Call.glDeleteShader h ∉ initTrace p w) ∧
    initTrace p (allSucceed w) = initTrace p w := by
  cases p <;>
    simp [initTrace, outcomeState, window_setup, triangle_init, square_init, State.init,
      h1, h2, allSucceed, isPrintCall, glViewport, glfwSetFramebufferSizeCallback,
      List.filter_cons]

theorem bufferTrace_head (p : Program) (hp : p = Program.triangle ∨ p = Program.square)
    (w : World) :
    (bufferTrace p w).head? = some (Call.glDeleteShader w.vertexShader) ∧
    bufferTrace p (allSucceed w) = bufferTrace p w := by
  rcases hp with rfl | rfl <;>
    simp [bufferTrace, triangle_buffers, square_buffers, State.init, allSucceed]

/-- C2: in the triangle and square programs, whatever the three statuses, a
run that gets past loading splits into the calls up to the last status check
(with its diagnostic) and the calls after it.  The first part prints exactly
one diagnostic per failed stage, in the order vertex, fragment, link, each a
non-empty text (header, log, newline), and contains no shader deletion.  The
second part starts with the deletion of the vertex shader, contains the
evaluation of the loop condition as soon as one is allowed, and is the same
list of calls as in the run in which the three statuses are success; the exit
code is the same as in that run and is never -1. -/
theorem C2_shader_failure_continues (p : Program)
    (hp : p = Program.triangle ∨ p = Program.square) (w : World) (fuel : Nat)
    (h1 : w.windowCreated = true) (h2 : w.loaderOk = true) :
    ∃ pre pre0 rest,
      (main p w fuel).2.trace = pre ++ rest ∧
      (main p (allSucceed w) fuel).2.trace = pre0 ++ rest ∧
      pre.getLast? =
        some (if w.programSuccess = 0
          then Call.print (programErrorHeader ++ infoLog 512 w.programLog ++ "\n")
          else Call.glGetProgramiv w.shaderProgram) ∧
      pre0.getLast? = some (Call.glGetProgramiv w.shaderProgram) ∧
      (∀ h, Call.glDeleteShader h ∉ pre) ∧ (∀ h, Call.glDeleteShader h ∉ pre0) ∧
      rest.head? = some (Call.glDeleteShader w.vertexShader) ∧
      (0 < fuel → Call.glfwWindowShouldClose ∈ rest) ∧
      pre.filter isPrintCall =
        (if w.vertexSuccess = 0
          then [Call.print (vertexErrorHeader ++ infoLog 512 w.vertexLog ++ "\n")]
          else []) ++
        (if w.fragmentSuccess = 0
          then [Call.print (fragmentErrorHeader ++ infoLog 512 w.fragmentLog ++ "\n")]
          else []) ++
        (if w.programSuccess = 0
          then [Call.print (programErrorHeader ++ infoLog 512 w.programLog ++ "\n")]
          else []) ∧
      pre0.filter isPrintCall = [] ∧
      (∀ log, vertexErrorHeader ++ infoLog 512 log ++ "\n" ≠ "" ∧
        fragmentErrorHeader ++ infoLog 512 log ++ "\n" ≠ "" ∧
        programErrorHeader ++ infoLog 512 log ++ "\n" ≠ "") ∧
      (main p w fuel).1 = (main p (allSucceed w) fuel).1 ∧
      (main p w fuel).1 ≠ some (-1) := by
  obtain ⟨hc, ht⟩ := main_ok p w fuel h1 h2
  obtain ⟨hc0, ht0⟩ := main_ok p (allSucceed w) fuel h1 h2
  obtain ⟨hi1, hi2, hi3⟩ := initTrace_ok_facts p w h1 h2
  obtain ⟨hb1, hb2⟩ := bufferTrace_head p hp w
  obtain ⟨hl1, hl2⟩ := buildTrace_last p hp w
  obtain ⟨hl3, hl4⟩ := buildTrace_last p hp (allSucceed w)
  refine ⟨initTrace p w ++ buildTrace p w, initTrace p w ++ buildTrace p (allSucceed w),
    bufferTrace p w ++ (loopTrace p w fuel 0 false ++
      (if loopExits w fuel 0 false then [Call.glfwTerminate] else [])),
    ?_, ?_, ?_, ?_, ?_, ?_, ?_, ?_, ?_, ?_, ?_, ?_, ?_⟩
  · rw [ht, setupTrace_ok p w h1 h2]; simp
  · rw [ht0, setupTrace_ok p (allSucceed w) h1 h2, hi3, hb2, loopTrace_allSucceed,
      loopExits_allSucceed]
    simp
  · rw [List.getLast?_append, hl1]; rfl
  · rw [List.getLast?_append, hl3]; rfl
  · intro h hm
    rcases List.mem_append.1 hm with hm | hm
    · exact hi2 h hm
    · exact hl2 h hm
  · intro h hm
    rcases List.mem_append.1 hm with hm | hm
    · exact hi2 h hm
    · exact hl4 h hm
  · rw [List.head?_append, hb1]; rfl
  · intro hf
    obtain ⟨n, rfl⟩ : ∃ n, fuel = n + 1 := ⟨fuel - 1, by omega⟩
    simp [loopTrace]
  · rw [List.filter_append, hi1, buildTrace_prints p hp w]; rfl
  · rw [List.filter_append, hi1, buildTrace_prints p hp (allSucceed w)]
    simp [allSucceed]
  · intro log
    exact ⟨diagnostic_nonempty _ _ (by decide), diagnostic_nonempty _ _ (by decide),
      diagnostic_nonempty _ _ (by decide)⟩
  · rw [hc, hc0, loopExits_allSucceed]
  · rw [hc]; cases loopExits w fuel 0 false <;> simp

/-- C2, at a concrete input: the square program with both compiles and the
link failing still ends with exit code 0, like the run in which they succeed. -/
theorem C2_shader_failure_continues_witness :
    (main Program.square worldBadShaders 3).1 = some 0 ∧
    (main Program.square worldBadShaders 3).1 =
      (main Program.square (allSucceed worldBadShaders) 3).1 :=
  let ⟨_, _, _, _, _, _, _, _, _, _, _, _, _, _, h, _⟩ :=
    C2_shader_failure_continues Program.square (Or.inr rfl) worldBadShaders 3 rfl rfl
  ⟨rfl, h⟩

/-! The life of the two shader objects (C8). -/

/-- What a filter that rejects the calls of the loop keeps of a run that gets
past loading: what it keeps of the three phases before the loop. -/
theorem main_filter (f : Call → Bool) (p : Program) (w : World) (fuel : Nat)
    (h1 : w.windowCreated = true) (h2 : w.loaderOk = true)
    (hloop : ∀ c, isLoopCall c = true → f c = false)
    (hbind : ∀ a, f (Call.glBindVertexArray a) = false)
    (hview : ∀ a b c d, f (Call.glViewport a b c d) = false)
    (hterm : f Call.glfwTerminate = false)
    (hinit : ∀ c ∈ initTrace p w, f c = false) :
    (main p w fuel).2.trace.filter f =
      (buildTrace p w).filter f ++ (bufferTrace p w).filter f := by
  have hi : (initTrace p w).filter f = [] := by
    rw [List.filter_eq_nil_iff]
    intro c hc
    simp [hinit c hc]
  rw [(main_ok p w fuel h1 h2).2, setupTrace_ok p w h1 h2, List.append_assoc,
    List.filter_append, filter_loopTrace f p w fuel hloop hbind (fun a b => hview 0 0 a b) hterm,
    List.filter_append, List.filter_append, hi]
  simp

theorem initTrace_noShader (p : Program) (w : World) (h1 : w.windowCreated = true)
    (h2 : w.loaderOk = true) (h : Nat) :
    ∀ c ∈ initTrace p w, refersToShader h c = false ∧ isLinkStep c = false := by
  cases p <;>
    simp [initTrace, outcomeState, window_setup, triangle_init, square_init, State.init,
      h1, h2, refersToShader, isLinkStep, glViewport, glfwSetFramebufferSizeCallback]

theorem refersToShader_loop (h : Nat) :
    (∀ c, isLoopCall c = true → refersToShader h c = false) ∧
    (∀ a, refersToShader h (Call.glBindVertexArray a) = false) ∧
    (∀ a b c d, refersToShader h (Call.glViewport a b c d) = false) ∧
    refersToShader h Call.glfwTerminate = false := by
  refine ⟨?_, fun _ => rfl, fun _ _ _ _ => rfl, rfl⟩
  intro c hc
  cases c <;> first | rfl | simp [isLoopCall] at hc

theorem isLinkStep_loop :
    (∀ c, isLoopCall c = true → isLinkStep c = false) ∧
    (∀ a, isLinkStep (Call.glBindVertexArray a) = false) ∧
    (∀ a b c d, isLinkStep (Call.glViewport a b c d) = false) ∧
    isLinkStep Call.glfwTerminate = false := by
  refine ⟨?_, fun _ => rfl, fun _ _ _ _ => rfl, rfl⟩
  intro c hc
  cases c <;> first | rfl | simp [isLoopCall] at hc

theorem build_refers_vertex (p : Program) (hp : p = Program.triangle ∨ p = Program.square)
    (w : World) (hne : w.vertexShader ≠ w.fragmentShader) :
    (buildTrace p w).filter (refersToShader w.vertexShader) =
      [Call.glCreateShader ShaderStage.vertex w.vertexShader,
       Call.glShaderSource w.vertexShader vertexShaderSource,
       Call.glCompileShader w.vertexShader,
       Call.glGetShaderiv w.vertexShader] ++
      (if w.vertexSuccess = 0 then [Call.glGetShaderInfoLog w.vertexShader 512] else []) ++
      [Call.glAttachShader w.shaderProgram w.vertexShader] := by
  have hne' := Ne.symm hne
  rcases hp with rfl | rfl
  · by_cases hv : w.vertexSuccess = 0 <;> by_cases hf : w.fragmentSuccess = 0 <;>
      by_cases hl : w.programSuccess = 0 <;>
      simp [buildTrace, triangle_shaderBuild, State.init, hv, hf, hl, refersToShader,
        List.filter_cons, hne, hne']
  · by_cases hv : w.vertexSuccess = 0 <;> by_cases hf : w.fragmentSuccess = 0 <;>
      by_cases hl : w.programSuccess = 0 <;>
      simp [buildTrace, square_shaderBuild, State.init, hv, hf, hl, refersToShader,
        List.filter_cons, hne, hne']

theorem build_refers_fragment (p : Program) (hp : p = Program.triangle ∨ p = Program.square)
    (w : World) (hne : w.vertexShader ≠ w.fragmentShader) :
    (buildTrace p w).filter (refersToShader w.fragmentShader) =
      [Call.glCreateShader ShaderStage.fragment w.fragmentShader,
       Call.glShaderSource w.fragmentShader fragmentShaderSource,
       Call.glCompileShader w.fragmentShader,
       Call.glGetShaderiv w.fragmentShader] ++
      (if w.fragmentSuccess = 0 then [Call.glGetShaderInfoLog w.fragmentShader 512] else []) ++
      [Call.glAttachShader w.shaderProgram w.fragmentShader] := by
  have hne' := Ne.symm hne
  rcases hp with rfl | rfl
  · by_cases hv : w.vertexSuccess = 0 <;> by_cases hf : w.fragmentSuccess = 0 <;>
      by_cases hl : w.programSuccess = 0 <;>
      simp [buildTrace, triangle_shaderBuild, State.init, hv, hf, hl, refersToShader,
        List.filter_cons, hne, hne']
  · by_cases hv : w.vertexSuccess = 0 <;> by_cases hf : w.fragmentSuccess = 0 <;>
      by_cases hl : w.programSuccess = 0 <;>
      simp [buildTrace, square_shaderBuild, State.init, hv, hf, hl, refersToShader,
        List.filter_cons, hne, hne']

theorem build_lifecycle (p : Program) (hp : p = Program.triangle ∨ p = Program.square)
    (w : World) (hne : w.vertexShader ≠ w.fragmentShader) :
    (buildTrace p w).filter (lifecycleOf w.vertexShader) =
      [Call.glCreateShader ShaderStage.vertex w.vertexShader,
       Call.glShaderSource w.vertexShader vertexShaderSource,
       Call.glCompileShader w.vertexShader,
       Call.glGetShaderiv w.vertexShader,
       Call.glAttachShader w.shaderProgram w.vertexShader] ∧
    (buildTrace p w).filter (lifecycleOf w.fragmentShader) =
      [Call.glCreateShader ShaderStage.fragment w.fragmentShader,
       Call.glShaderSource w.fragmentShader fragmentShaderSource,
       Call.glCompileShader w.fragmentShader,
       Call.glGetShaderiv w.fragmentShader,
       Call.glAttachShader w.shaderProgram w.fragmentShader] := by
  have hne' := Ne.symm hne
  rcases hp with rfl | rfl
  · by_cases hv : w.vertexSuccess = 0 <;> by_cases hf : w.fragmentSuccess = 0 <;>
      by_cases hl : w.programSuccess = 0 <;>
      simp [buildTrace, triangle_shaderBuild, State.init, hv, hf, hl, refersToShader,
        lifecycleOf, isLifecycleCall, List.filter_cons, hne, hne']
  · by_cases hv : w.vertexSuccess = 0 <;> by_cases hf : w.fragmentSuccess = 0 <;>
      by_cases hl : w.programSuccess = 0 <;>
      simp [buildTrace, square_shaderBuild, State.init, hv, hf, hl, refersToShader,
        lifecycleOf, isLifecycleCall, List.filter_cons, hne, hne']

theorem build_linkSteps (p : Program) (hp : p = Program.triangle ∨ p = Program.square)
    (w : World) :
    (buildTrace p w).filter isLinkStep =
      [Call.glCreateProgram w.shaderProgram,
       Call.glAttachShader w.shaderProgram w.vertexShader,
       Call.glAttachShader w.shaderProgram w.fragmentShader,
       Call.glLinkProgram w.shaderProgram,
       Call.glGetProgramiv w.shaderProgram] := by
  rcases hp with rfl | rfl
  · by_cases hv : w.vertexSuccess = 0 <;> by_cases hf : w.fragmentSuccess = 0 <;>
      by_cases hl : w.programSuccess = 0 <;>
      simp [buildTrace, triangle_shaderBuild, State.init, hv, hf, hl, isLinkStep,
        List.filter_cons]
  · by_cases hv : w.vertexSuccess = 0 <;> by_cases hf : w.fragmentSuccess = 0 <;>
      by_cases hl : w.programSuccess = 0 <;>
      simp [buildTrace, square_shaderBuild, State.init, hv, hf, hl, isLinkStep,
        List.filter_cons]

theorem buffer_filters (p : Program) (hp : p = Program.triangle ∨ p = Program.square)
    (w : World) (hne : w.vertexShader ≠ w.fragmentShader) :
    (bufferTrace p w).filter (refersToShader w.vertexShader) =
      [Call.glDeleteShader w.vertexShader] ∧
    (bufferTrace p w).filter (refersToShader w.fragmentShader) =
      [Call.glDeleteShader w.fragmentShader] ∧
    (bufferTrace p w).filter (lifecycleOf w.vertexShader) =
      [Call.glDeleteShader w.vertexShader] ∧
    (bufferTrace p w).filter (lifecycleOf w.fragmentShader) =
      [Call.glDeleteShader w.fragmentShader] ∧
    (bufferTrace p w).filter isLinkStep =
      [Call.glDeleteShader w.vertexShader, Call.glDeleteShader w.fragmentShader] := by
  have hne' := Ne.symm hne
  rcases hp with rfl | rfl <;>
    simp [bufferTrace, triangle_buffers, square_buffers, State.init, refersToShader,
      lifecycleOf, isLifecycleCall, isLinkStep, List.filter_cons, hne, hne']

/-- C8: in the triangle and square programs, in every run that gets past
loading and in which the driver returned two different shader names, whatever
the three statuses: the calls on each shader that are one of create, source
upload, compile, compile-status query, attach, delete are exactly these six,
once each and in this order, the attach being to the one program object
created; the calls that build the program are, in order, its creation, the two
attaches, the link, the link-status query and then the two deletions; and no
call made after the deletion of a shader names that shader. -/
theorem C8_shader_lifecycle (p : Program)
    (hp : p = Program.triangle ∨ p = Program.square) (w : World) (fuel : Nat)
    (h1 : w.windowCreated = true) (h2 : w.loaderOk = true)
    (hne : w.vertexShader ≠ w.fragmentShader) :
    (main p w fuel).2.trace.filter (lifecycleOf w.vertexShader) =
      [Call.glCreateShader ShaderStage.vertex w.vertexShader,
       Call.glShaderSource w.vertexShader vertexShaderSource,
       Call.glCompileShader w.vertexShader,
       Call.glGetShaderiv w.vertexShader,
       Call.glAttachShader w.shaderProgram w.vertexShader,
       Call.glDeleteShader w.vertexShader] ∧
    (main p w fuel).2.trace.filter (lifecycleOf w.fragmentShader) =
      [Call.glCreateShader ShaderStage.fragment w.fragmentShader,
       Call.glShaderSource w.fragmentShader fragmentShaderSource,
       Call.glCompileShader w.fragmentShader,
       Call.glGetShaderiv w.fragmentShader,
       Call.glAttachShader w.shaderProgram w.fragmentShader,
       Call.glDeleteShader w.fragmentShader] ∧
    (main p w fuel).2.trace.filter isLinkStep =
      [Call.glCreateProgram w.shaderProgram,
       Call.glAttachShader w.shaderProgram w.vertexShader,
       Call.glAttachShader w.shaderProgram w.fragmentShader,
       Call.glLinkProgram w.shaderProgram,
       Call.glGetProgramiv w.shaderProgram,
       Call.glDeleteShader w.vertexShader,
       Call.glDeleteShader w.fragmentShader] ∧
    (∀ pre post, (main p w fuel).2.trace = pre ++ Call.glDeleteShader w.vertexShader :: post →
      ∀ c ∈ post, refersToShader w.vertexShader c = false) ∧
    (∀ pre post, (main p w fuel).2.trace = pre ++ Call.glDeleteShader w.fragmentShader :: post →
      ∀ c ∈ post, refersToShader w.fragmentShader c = false) := by
  obtain ⟨b1, b2, b3, b4, b5⟩ := buffer_filters p hp w hne
  obtain ⟨l1, l2⟩ := build_lifecycle p hp w hne
  have hlife : ∀ h,
      (∀ c, isLoopCall c = true → lifecycleOf h c = false) ∧
      (∀ a, lifecycleOf h (Call.glBindVertexArray a) = false) ∧
      (∀ a b c d, lifecycleOf h (Call.glViewport a b c d) = false) ∧
      lifecycleOf h Call.glfwTerminate = false ∧
      ∀ c ∈ initTrace p w, lifecycleOf h c = false := by
    intro h
    obtain ⟨r1, r2, r3, r4⟩ := refersToShader_loop h
    refine ⟨fun c hc => by simp [lifecycleOf, r1 c hc], fun a => by simp [lifecycleOf, r2],
      fun a b c d => by simp [lifecycleOf, r3], by simp [lifecycleOf, r4],
      fun c hc => by simp [lifecycleOf, (initTrace_noShader p w h1 h2 h c hc).1]⟩
  have hrv : (main p w fuel).2.trace.filter (refersToShader w.vertexShader) =
      ([Call.glCreateShader ShaderStage.vertex w.vertexShader,
        Call.glShaderSource w.vertexShader vertexShaderSource,
        Call.glCompileShader w.vertexShader,
        Call.glGetShaderiv w.vertexShader] ++
       (if w.vertexSuccess = 0 then [Call.glGetShaderInfoLog w.vertexShader 512] else []) ++
       [Call.glAttachShader w.shaderProgram w.vertexShader]) ++
      [Call.glDeleteShader w.vertexShader] := by
    obtain ⟨r1, r2, r3, r4⟩ := refersToShader_loop w.vertexShader
    rw [main_filter _ p w fuel h1 h2 r1 r2 r3 r4
      (fun c hc => (initTrace_noShader p w h1 h2 _ c hc).1),
      build_refers_vertex p hp w hne, b1]
  have hrf : (main p w fuel).2.trace.filter (refersToShader w.fragmentShader) =
      ([Call.glCreateShader ShaderStage.fragment w.fragmentShader,
        Call.glShaderSource w.fragmentShader fragmentShaderSource,
        Call.glCompileShader w.fragmentShader,
        Call.glGetShaderiv w.fragmentShader] ++
       (if w.fragmentSuccess = 0 then [Call.glGetShaderInfoLog w.fragmentShader 512] else []) ++
       [Call.glAttachShader w.shaderProgram w.fragmentShader]) ++
      [Call.glDeleteShader w.fragmentShader] := by
    obtain ⟨r1, r2, r3, r4⟩ := refersToShader_loop w.fragmentShader
    rw [main_filter _ p w fuel h1 h2 r1 r2 r3 r4
      (fun c hc => (initTrace_noShader p w h1 h2 _ c hc).1),
      build_refers_fragment p hp w hne, b2]
  refine ⟨?_, ?_, ?_, ?_, ?_⟩
  · obtain ⟨r1, r2, r3, r4, r5⟩ := hlife w.vertexShader
    rw [main_filter _ p w fuel h1 h2 r1 r2 r3 r4 r5, l1, b3]; rfl
  · obtain ⟨r1, r2, r3, r4, r5⟩ := hlife w.fragmentShader
    rw [main_filter _ p w fuel h1 h2 r1 r2 r3 r4 r5, l2, b4]; rfl
  · obtain ⟨r1, r2, r3, r4⟩ := isLinkStep_loop
    rw [main_filter _ p w fuel h1 h2 r1 r2 r3 r4
      (fun c hc => (initTrace_noShader p w h1 h2 0 c hc).2),
      build_linkSteps p hp w, b5]; rfl
  · refine nothing_after_last _ _ _ _ hrv ?_ (by simp [refersToShader])
    by_cases hv : w.vertexSuccess = 0 <;> simp [hv]
  · refine nothing_after_last _ _ _ _ hrf ?_ (by simp [refersToShader])
    by_cases hv : w.fragmentSuccess = 0 <;> simp [hv]

/-- C8, at a concrete input: the run of the triangle program in which both
compiles and the link fail. -/
theorem C8_shader_lifecycle_witness :
    (main Program.triangle worldBadShaders 3).2.trace.filter isLinkStep =
      [Call.glCreateProgram 3, Call.glAttachShader 3 1, Call.glAttachShader 3 2,
       Call.glLinkProgram 3, Call.glGetProgramiv 3, Call.glDeleteShader 1,
       Call.glDeleteShader 2] :=
  (C8_shader_lifecycle Program.triangle (Or.inl rfl) worldBadShaders 3 rfl rfl
    (by decide)).2.2.1

/-! The two compile diagnostics share one header (C10). -/

theorem stdout_main (p : Program) (w : World) (fuel : Nat) :
    stdout (main p w fuel).2.trace = stdout (setupTrace p w) := by
  by_cases hok : w.windowCreated = true ∧ w.loaderOk = true
  · rw [(main_ok p w fuel hok.1 hok.2).2, List.append_assoc, stdout_append, stdout_loop,
      String.append_empty]
  · have hf : w.windowCreated = false ∨ w.loaderOk = false := by
      cases hw : w.windowCreated <;> cases hl : w.loaderOk <;> simp_all
    rw [(main_fail p w fuel hf).2]

theorem stdout_bufferTrace (p : Program) (w : World) : stdout (bufferTrace p w) = "" := by
  cases p <;> simp [bufferTrace, triangle_buffers, square_buffers, State.init, stdout]

theorem stdout_buildTrace (p : Program) (hp : p = Program.triangle ∨ p = Program.square)
    (w : World) :
    stdout (buildTrace p w) =
      (if w.vertexSuccess = 0 then vertexErrorHeader ++ infoLog 512 w.vertexLog ++ "\n"
        else "") ++
      ((if w.fragmentSuccess = 0 then fragmentErrorHeader ++ infoLog 512 w.fragmentLog ++ "\n"
        else "") ++
      (if w.programSuccess = 0 then programErrorHeader ++ infoLog 512 w.programLog ++ "\n"
        else "")) := by
  rcases hp with rfl | rfl
  · by_cases hv : w.vertexSuccess = 0 <;> by_cases hf : w.fragmentSuccess = 0 <;>
      by_cases hl : w.programSuccess = 0 <;>
      simp [buildTrace, triangle_shaderBuild, State.init, hv, hf, hl, stdout]
  · by_cases hv : w.vertexSuccess = 0 <;> by_cases hf : w.fragmentSuccess = 0 <;>
      by_cases hl : w.programSuccess = 0 <;>
      simp [buildTrace, square_shaderBuild, State.init, hv, hf, hl, stdout]

theorem stdout_initTrace (p : Program) (w : World) :
    stdout (initTrace p w) =
      if w.windowCreated = false then "Failed to create GLFW window\n"
      else if w.loaderOk = false then "Failed to initialize GLAD\n" else "" := by
  cases p <;> cases hw : w.windowCreated <;> cases hl : w.loaderOk <;>
    simp [initTrace, outcomeState, window_setup, triangle_init, square_init, State.init,
      hw, hl, glViewport, glfwSetFramebufferSizeCallback, stdout]

theorem stdout_setupTrace (p : Program) (w : World) :
    stdout (setupTrace p w) =
      if w.windowCreated = false then "Failed to create GLFW window\n"
      else if w.loaderOk = false then "Failed to initialize GLAD\n"
      else stdout (buildTrace p w) := by
  by_cases hok : w.windowCreated = true ∧ w.loaderOk = true
  · rw [setupTrace_ok p w hok.1 hok.2, stdout_append, stdout_append, stdout_initTrace,
      stdout_bufferTrace]
    simp [hok.1, hok.2, String.append_empty, String.empty_append]
  · have hf : w.windowCreated = false ∨ w.loaderOk = false := by
      cases hw : w.windowCreated <;> cases hl : w.loaderOk <;> simp_all
    rw [setupTrace_fail p w hf, stdout_initTrace]
    rcases hf with h | h
    · simp [h]
    · simp [h]

/-- C10: in the triangle and square programs the header printed for a
fragment-stage compile failure is the same text as the one printed for a
vertex-stage failure, "ERROR::SHADER::VERTEX::COMPILATION_FAILED" and a
newline.  Hence a run in which only the vertex stage fails and a run in which
only the fragment stage fails with the same log, alike in window creation,
loading and linking, write the same text to standard output; when the link
succeeds that text is the header, the log as cut by the 512-char buffer, and a
newline. -/
theorem C10_fragment_header_says_vertex (p : Program)
    (hp : p = Program.triangle ∨ p = Program.square) (wA wB : World) (fuelA fuelB : Nat) :
    fragmentErrorHeader = vertexErrorHeader ∧
    fragmentErrorHeader = "ERROR::SHADER::VERTEX::COMPILATION_FAILED\n" ∧
    (wA.windowCreated = wB.windowCreated → wA.loaderOk = wB.loaderOk →
      wA.vertexSuccess = 0 → wA.fragmentSuccess ≠ 0 →
      wB.vertexSuccess ≠ 0 → wB.fragmentSuccess = 0 →
      wA.vertexLog = wB.fragmentLog →
      wA.programSuccess = wB.programSuccess → wA.programLog = wB.programLog →
      stdout (main p wA fuelA).2.trace = stdout (main p wB fuelB).2.trace) ∧
    (wA.windowCreated = true → wA.loaderOk = true →
      wA.vertexSuccess = 0 → wA.fragmentSuccess ≠ 0 → wA.programSuccess ≠ 0 →
      stdout (main p wA fuelA).2.trace =
        "ERROR::SHADER::VERTEX::COMPILATION_FAILED\n" ++ infoLog 512 wA.vertexLog ++ "\n") ∧
    (wB.windowCreated = true → wB.loaderOk = true →
      wB.vertexSuccess ≠ 0 → wB.fragmentSuccess = 0 → wB.programSuccess ≠ 0 →
      stdout (main p wB fuelB).2.trace =
        "ERROR::SHADER::VERTEX::COMPILATION_FAILED\n" ++ infoLog 512 wB.fragmentLog ++ "\n") := by
  refine ⟨rfl, rfl, ?_, ?_, ?_⟩
  · intro hw hl hv hf hv' hf' hlog hps hpl
    rw [stdout_main, stdout_main, stdout_setupTrace, stdout_setupTrace,
      stdout_buildTrace p hp, stdout_buildTrace p hp]
    simp [hw, hl, hv, hf, hv', hf', hlog, hps, hpl, fragmentErrorHeader, vertexErrorHeader,
      String.empty_append]
  · intro hw hl hv hf hps
    rw [stdout_main, stdout_setupTrace, stdout_buildTrace p hp]
    simp [hw, hl, hv, hf, hps, vertexErrorHeader, String.empty_append, String.append_empty]
  · intro hw hl hv hf hps
    rw [stdout_main, stdout_setupTrace, stdout_buildTrace p hp]
    simp [hw, hl, hv, hf, hps, fragmentErrorHeader, String.empty_append, String.append_empty]

/-- C10, at a concrete input: the square program run once with only the vertex
stage failing and once with only the fragment stage failing, both with the log
"0:1: unexpected token", writes the same text both times. -/
theorem C10_fragment_header_says_vertex_witness :
    stdout (main Program.square
      { worldEscape with vertexSuccess := 0, vertexLog := "0:1: unexpected token" } 4).2.trace =
    stdout (main Program.square
      { worldEscape with fragmentSuccess := 0, fragmentLog := "0:1: unexpected token" }
      4).2.trace :=
  (C10_fragment_header_says_vertex Program.square (Or.inr rfl)
    { worldEscape with vertexSuccess := 0, vertexLog := "0:1: unexpected token" }
    { worldEscape with fragmentSuccess := 0, fragmentLog := "0:1: unexpected token" }
    4 4).2.2.1 rfl rfl rfl (by decide) (by decide) rfl rfl rfl rfl

end LearnOpenGL
